import Mathlib

/-!
A shallow embedding of the simulation core of the `streamer-strike` game
(`src/game/Physics.ts`, `TileMap.ts`, `CharacterController.ts`, `Enemy.ts`,
`Collectible.ts`, `NetworkTypes.ts`, `GameEngine.ts`) together with proofs
about its tick, damage, reconciliation and terminal-state behaviour.

Modelling conventions:
* JavaScript numbers are modelled as `ℚ` (the code only uses `+ - * / min abs
  sign floor` and comparisons, except for `Math.pow` noted below).
* The two time-scaled friction factors `Math.pow(0.5, dt/16.67)` and
  `Math.pow(0.90, dt/16.67)` computed in `CharacterController` are transcendental
  in `dt`; they are passed as explicit parameters (`fricAttack`, `fricRun`).
  For any fixed `dt > 0` both lie strictly between 0 and 1, which is the only
  fact the proofs use; at the reference step `dt = 16.67` they are exactly
  `1/2` and `9/10`.
* `Math.random()` results are threaded as explicit oracle values (`Oracle`).
* TypeScript string-literal union types (`CharacterState`, `EnemyType`,
  `EnemyState`, `CollectibleType`) are modelled as `String`, exactly as they
  are at the JavaScript runtime; this keeps the stale string comparisons in
  `GameEngine.update` expressible.
* `Map<string, CharacterController>` is an insertion-ordered association list;
  `forEach` is in-order traversal.
-/

/-- `Rectangle` from `Physics.ts`. -/
structure Rect where
  x : ℚ
  y : ℚ
  width : ℚ
  height : ℚ
deriving DecidableEq, Repr

/-- `Physics.checkCollision` from `Physics.ts`; both arguments are nullable
and `null` never collides. -/
def Physics.checkCollision : Option Rect → Option Rect → Bool
  | some r1, some r2 =>
    decide (r1.x < r2.x + r2.width) && decide (r1.x + r1.width > r2.x) &&
    decide (r1.y < r2.y + r2.height) && decide (r1.y + r1.height > r2.y)
  | _, _ => false

/-- `Physics.resolveCollision` from `Physics.ts`: translation vector pushing
`r1` out of `r2` along the axis of least penetration. -/
def Physics.resolveCollision (r1 r2 : Rect) : ℚ × ℚ :=
  let overlapX1 := r1.x + r1.width - r2.x
  let overlapX2 := r2.x + r2.width - r1.x
  let overlapY1 := r1.y + r1.height - r2.y
  let overlapY2 := r2.y + r2.height - r1.y
  let minX := min overlapX1 overlapX2
  let minY := min overlapY1 overlapY2
  if minX < minY then
    if overlapX1 < overlapX2 then (-overlapX1, 0) else (overlapX2, 0)
  else
    if overlapY1 < overlapY2 then (0, -overlapY1) else (0, overlapY2)

/-- `Physics.resolveCollisionX` from `Physics.ts`. -/
def Physics.resolveCollisionX (r1 r2 : Rect) : ℚ :=
  let overlapX1 := r1.x + r1.width - r2.x
  let overlapX2 := r2.x + r2.width - r1.x
  if overlapX1 < overlapX2 then -overlapX1 else overlapX2

/-- `Physics.resolveCollisionY` from `Physics.ts`. -/
def Physics.resolveCollisionY (r1 r2 : Rect) : ℚ :=
  let overlapY1 := r1.y + r1.height - r2.y
  let overlapY2 := r2.y + r2.height - r1.y
  if overlapY1 < overlapY2 then -overlapY1 else overlapY2

/-- `Math.sign`. -/
def signQ (q : ℚ) : ℚ := if q > 0 then 1 else if q < 0 then -1 else 0

/-- `TileData` from `TileMap.ts`. -/
structure TileData where
  tileId : ℤ
  flipX : Bool
deriving DecidableEq, Repr

/-- `MapLayer` from `TileMap.ts`; `data` is the sparse record keyed by
`"col,row"` strings. -/
structure MapLayer where
  id : String
  name : String
  visible : Bool
  opacity : ℚ
  data : List (String × TileData)
deriving DecidableEq, Repr

/-- `TileMap` from `TileMap.ts` (render-only fields omitted). -/
structure TileMap where
  layers : List MapLayer
  tileSize : ℚ
deriving DecidableEq, Repr

/-- The inclusive integer loop `for (i = lo; i <= hi; i++)`. -/
def intRange (lo hi : ℤ) : List ℤ :=
  (List.range (hi + 1 - lo).toNat).map (fun i => lo + (i : ℤ))

/-- The template string `` `${x},${y}` `` used as a tile key. -/
def keyOf (x y : ℤ) : String := toString x ++ "," ++ toString y

/-- `TileMap.getCollisions`: solid tile rectangles (from layers named
`Collision` or `Terrain`) that actually intersect `rect`. -/
def TileMap.getCollisions (tm : TileMap) (rect : Rect) : List Rect :=
  let startX := ⌊rect.x / tm.tileSize⌋
  let endX := ⌊(rect.x + rect.width) / tm.tileSize⌋
  let startY := ⌊rect.y / tm.tileSize⌋
  let endY := ⌊(rect.y + rect.height) / tm.tileSize⌋
  let collisionLayers := tm.layers.filter (fun l => l.name == "Collision" || l.name == "Terrain")
  collisionLayers.foldl (fun acc layer =>
    acc ++ ((intRange startX endX).foldl (fun acc2 x =>
      acc2 ++ ((intRange startY endY).filterMap (fun y =>
        if (layer.data.find? (fun kv => kv.1 == keyOf x y)).isSome then
          let tileRect : Rect :=
            { x := (x : ℚ) * tm.tileSize, y := (y : ℚ) * tm.tileSize,
              width := tm.tileSize, height := tm.tileSize }
          if Physics.checkCollision (some rect) (some tileRect) then some tileRect else none
        else none))) [])) []

/-- `InputState` from `InputState.ts`. -/
structure InputState where
  left : Bool
  right : Bool
  up : Bool
  down : Bool
  jump : Bool
  run : Bool
  jab : Bool
  kick : Bool
  heavyPunch : Bool
  sweep : Bool
deriving DecidableEq, Repr

/-- The input record with every intent flag false. -/
def idleInput : InputState :=
  { left := false, right := false, up := false, down := false, jump := false,
    run := false, jab := false, kick := false, heavyPunch := false, sweep := false }

/-- Observable engine callbacks: `onScore(n)` and `onDamage(n)` from
`GameEngine.ts`, recorded as events. -/
inductive GameEvent where
  | score (amount : ℚ)
  | damage (amount : ℚ)
deriving DecidableEq, Repr

/-- Results of the `Math.random()` calls performed during one tick:
per-player jab/kick move selection in `CharacterController.update` and the
per-enemy 50% drop roll in the dead-enemy sweep. -/
structure Oracle where
  rJab : String → Bool
  rKick : String → Bool
  drop : ℕ → Bool

/-- `ATTACK_STATES` from `CharacterController.ts`. -/
def ATTACK_STATES : List String :=
  ["ATTACKING", "JAB", "STRONG_PUNCH", "WEAK_PUNCH", "TORNADO_KICK", "SWEEP_KICK"]

/-- Membership in `ATTACK_STATES`. -/
def isAttackState (s : String) : Bool := ATTACK_STATES.contains s

/-- `CharacterController` from `CharacterController.ts` (public and private
mutable fields; the constants stay literals in the step functions). -/
structure Character where
  characterType : String
  x : ℚ
  y : ℚ
  vx : ℚ
  vy : ℚ
  width : ℚ
  height : ℚ
  state : String
  direction : ℤ
  animationTimer : ℚ
  isGrounded : Bool
  safePosition : ℚ × ℚ
  jumpCount : ℕ
  canJump : Bool
  hp : ℚ
  maxHp : ℚ
  isHit : Bool
  hitTimer : ℚ
deriving DecidableEq, Repr

/-- The `CharacterController` constructor. -/
def Character.new (x y : ℚ) : Character :=
  { characterType := "FRESH", x := x, y := y, vx := 0, vy := 0, width := 64, height := 64,
    state := "IDLE", direction := 1, animationTimer := 0, isGrounded := false,
    safePosition := (x, y), jumpCount := 0, canJump := true, hp := 100, maxHp := 100,
    isHit := false, hitTimer := 0 }

/-- `CharacterController.takeDamage`. -/
def Character.takeDamage (amount : ℚ) (c : Character) : Character :=
  if c.hitTimer > 0 then c
  else { c with hp := c.hp - amount, hitTimer := 500 }

/-- `CharacterController.setState`. -/
def Character.setState (c : Character) (newState : String) : Character :=
  if c.state == newState then c
  else { c with state := newState, animationTimer := 0 }

/-- `CharacterController.checkVoid` (the source also returns a "respawned"
boolean which `GameEngine` discards). -/
def Character.checkVoid (bottomLimit : ℚ) (c : Character) : Character :=
  if c.y > bottomLimit then
    { c with hp := c.hp - 20, x := c.safePosition.1, y := c.safePosition.2, vx := 0, vy := 0 }
  else c

/-- `CharacterController.getHurtbox`. -/
def Character.getHurtbox (c : Character) : Rect :=
  { x := c.x - c.width / 2 + 24, y := c.y - c.height, width := c.width - 24 * 2, height := c.height }

/-- `CharacterController.getHitbox`: `null` outside attack states and outside
the 83ms–333ms active-frame window. -/
def Character.getHitbox (c : Character) : Option Rect :=
  if !(isAttackState c.state) then none
  else if c.animationTimer < 83 || c.animationTimer > 333 then none
  else
    some { x := if c.direction == 1 then c.x + 10 else c.x - 2 - 10,
           y := c.y - 60, width := 2, height := 60 }

/-- First statement of `CharacterController.update`:
`if (this.hitTimer > 0) this.hitTimer -= dt`. -/
def Character.tickHitTimer (dt : ℚ) (c : Character) : Character :=
  if c.hitTimer > 0 then { c with hitTimer := c.hitTimer - dt } else c

/-- `CharacterController.handleMovement`. `fricRun` stands for
`Math.pow(0.90, dt / 16.67)`. -/
def Character.handleMovement (fricRun : ℚ) (input : InputState) (dt : ℚ) (c : Character) : Character :=
  let speed : ℚ := if input.run then 0.0001 * 2 else 0.0001
  let c : Character :=
    if input.left then
      let c : Character := { c with vx := c.vx - speed * dt, direction := -1 }
      if c.state != "JUMPING" then c.setState "RUNNING" else c
    else if input.right then
      let c : Character := { c with vx := c.vx + speed * dt, direction := 1 }
      if c.state != "JUMPING" then c.setState "RUNNING" else c
    else
      let c : Character := { c with vx := c.vx * fricRun }
      if |c.vx| < 0.01 then
        let c : Character := { c with vx := 0 }
        if c.state != "JUMPING" then c.setState "IDLE" else c
      else c
  let c : Character :=
    if input.jump && c.canJump then
      if c.isGrounded then
        { c.setState "JUMPING" with vy := -1, isGrounded := false, jumpCount := 1, canJump := false }
      else if c.jumpCount < 2 then
        { c.setState "JUMPING" with vy := -1, jumpCount := c.jumpCount + 1, canJump := false }
      else c
    else c
  let c : Character := if !input.jump then { c with canJump := true } else c
  { c with vy := c.vy + 0.005 * dt }

/-- The attack-lock / movement section of `CharacterController.update`.
`fricAttack` stands for `Math.pow(0.5, dt / 16.67)`. -/
def Character.stepCombat (fricAttack fricRun : ℚ) (input : InputState) (dt : ℚ) (c : Character) : Character :=
  if isAttackState c.state then
    let c : Character := { c with animationTimer := c.animationTimer + dt }
    let c : Character := if c.animationTimer ≥ 500 then c.setState "IDLE" else c
    if c.y ≥ 500 then { c with vx := c.vx * fricAttack }
    else { c with vy := c.vy + 0.005 * dt }
  else c.handleMovement fricRun input dt

/-- The X-axis tile resolution inside `CharacterController.update`
(`if (map) { ... resolveCollisionX ... }`). -/
def Character.resolveMapX (map : Option TileMap) (c : Character) : Character :=
  match map with
  | some m =>
    let hurtbox := c.getHurtbox
    match m.getCollisions hurtbox with
    | [] => c
    | t :: _ => { c with x := c.x + Physics.resolveCollisionX hurtbox t, vx := 0 }
  | none => c

/-- The Y-axis tile resolution inside `CharacterController.update`, with the
hardcoded floor at `y = 500` when no map is given. -/
def Character.resolveMapY (map : Option TileMap) (c : Character) : Character :=
  match map with
  | some m =>
    let hurtbox := c.getHurtbox
    match m.getCollisions hurtbox with
    | [] => c
    | t :: _ =>
      let resolutionY := Physics.resolveCollisionY hurtbox t
      let c : Character := { c with y := c.y + resolutionY }
      if resolutionY < 0 then { c with isGrounded := true, vy := 0 }
      else if resolutionY > 0 then { c with vy := 0 }
      else c
  | none =>
    if c.y ≥ 500 then { c with y := 500, vy := 0, isGrounded := true } else c

/-- The physics section of `CharacterController.update`: X integration, map
bounds clamp, per-axis tile resolution, Y integration, and the hardcoded
floor at `y = 500` when no map is given. -/
def Character.stepPhysics (dt : ℚ) (map : Option TileMap) (c : Character) : Character :=
  let c : Character := { c with x := c.x + c.vx * dt }
  let c : Character :=
    if c.x < 0 then { c with x := 0, vx := 0 }
    else if c.x > 7500 then { c with x := 7500, vx := 0 }
    else c
  let c : Character := c.resolveMapX map
  let c : Character := { c with y := c.y + c.vy * dt, isGrounded := false }
  c.resolveMapY map

/-- The grounded / airborne state section of `CharacterController.update`:
landing transitions, safe-position checkpoint, jump-count reset, forced
`JUMPING` in the air. -/
def Character.stepStateGround (c : Character) : Character :=
  if c.isGrounded then
    let c : Character :=
      if c.state == "JUMPING" then
        if |c.vx| > 0.1 then c.setState "RUNNING" else c.setState "IDLE"
      else c
    let c : Character := if c.vy == 0 then { c with safePosition := (c.x, c.y) } else c
    if c.isGrounded && c.vy == 0 then { c with jumpCount := 0 } else c
  else
    if !(isAttackState c.state) && c.state != "JUMPING" then c.setState "JUMPING" else c

/-- The attack-trigger section of `CharacterController.update`; `rJab` and
`rKick` are the two `Math.random() > 0.5` draws. -/
def Character.stepTriggers (rJab rKick : Bool) (input : InputState) (c : Character) : Character :=
  if !(isAttackState c.state) then
    if input.jab then c.setState (if rJab then "JAB" else "WEAK_PUNCH")
    else if input.kick then c.setState (if rKick then "ATTACKING" else "TORNADO_KICK")
    else if input.heavyPunch then c.setState "STRONG_PUNCH"
    else if input.sweep then c.setState "SWEEP_KICK"
    else c
  else c

/-- `CharacterController.update`, as the composition of its sections in
source order. -/
def Character.update (fricAttack fricRun : ℚ) (rJab rKick : Bool) (input : InputState)
    (dt : ℚ) (map : Option TileMap) (c : Character) : Character :=
  ((((c.tickHitTimer dt).stepCombat fricAttack fricRun input dt).stepPhysics dt
      map).stepStateGround).stepTriggers rJab rKick input

/-- `n` successive calls to `CharacterController.update` with the same
timestep, inputs and random draws. -/
def Character.iterUpdate (fricAttack fricRun : ℚ) (rJab rKick : Bool) (input : InputState)
    (dt : ℚ) (map : Option TileMap) (c : Character) : ℕ → Character
  | 0 => c
  | n + 1 =>
    (Character.iterUpdate fricAttack fricRun rJab rKick input dt map c n).update
      fricAttack fricRun rJab rKick input dt map

/-- The standing-on-the-floor configuration preserved by idle-input ticks:
on the hardcoded floor, not moving vertically, grounded, in IDLE or RUNNING
state, inside the world bounds. -/
def frictionInv (c : Character) : Prop :=
  c.y = 500 ∧ c.vy = 0 ∧ c.isGrounded = true ∧
  (c.state = "IDLE" ∨ c.state = "RUNNING") ∧ 0 ≤ c.x ∧ c.x ≤ 7500

/-- `Enemy` from `Enemy.ts` (the per-instance `renderer` is presentation-only
and out of scope). -/
structure Enemy where
  id : String
  x : ℚ
  y : ℚ
  width : ℚ
  height : ℚ
  hp : ℚ
  maxHp : ℚ
  type : String
  state : String
  vy : ℚ
  isHit : Bool
  hitTimer : ℚ
  attackTimer : ℚ
  direction : ℤ
deriving DecidableEq, Repr

/-- The `Enemy` constructor; the source draws a random 9-character `id` from
`Math.random()`, modelled as the explicit parameter `id`. -/
def Enemy.new (x y : ℚ) (ty : String) (id : String) : Enemy :=
  let hp : ℚ := if ty == "SPAMMER" then 50 else 150
  { id := id, x := x, y := y, width := 64, height := 64, hp := hp, maxHp := hp,
    type := ty, state := "IDLE", vy := 0, isHit := false, hitTimer := 0,
    attackTimer := 0, direction := -1 }

/-- `Enemy.takeDamage`. -/
def Enemy.takeDamage (amount : ℚ) (e : Enemy) : Enemy :=
  { e with hp := e.hp - amount, isHit := true, hitTimer := 333 }

/-- `Enemy.getHurtbox`. -/
def Enemy.getHurtbox (e : Enemy) : Rect :=
  { x := e.x - e.width / 2 + 10, y := e.y - e.height + 5,
    width := e.width - 20, height := e.height - 10 }

/-- `Enemy.updateSpammer`: returns the updated enemy and the desired `vx`. -/
def Enemy.updateSpammer (dt distance : ℚ) (e : Enemy) : Enemy × ℚ :=
  if e.attackTimer > 0 then ({ e with attackTimer := e.attackTimer - dt, state := "ATTACK" }, 0)
  else if |distance| < 35 then ({ e with attackTimer := 667, state := "ATTACK" }, 0)
  else if |distance| > 35 then
    ({ e with direction := if distance > 0 then -1 else 1, state := "RUN" },
     signQ distance * 0.0009)
  else ({ e with state := "IDLE" }, 0)

/-- `Enemy.updateTroll`: returns the updated enemy and the desired `vx`. -/
def Enemy.updateTroll (dt distance : ℚ) (e : Enemy) : Enemy × ℚ :=
  if e.attackTimer > 0 then ({ e with attackTimer := e.attackTimer - dt, state := "ATTACK" }, 0)
  else if |distance| < 30 then ({ e with attackTimer := 1000, state := "ATTACK" }, 0)
  else if |distance| < 400 then
    ({ e with direction := if distance > 0 then -1 else 1, state := "RUN" },
     signQ distance * 0.0006)
  else ({ e with state := "IDLE" }, 0)

/-- `Enemy.update`. -/
def Enemy.update (dt targetX : ℚ) (map : Option TileMap) (e : Enemy) : Enemy :=
  if e.hitTimer > 0 then
    let ht := e.hitTimer - dt
    { e with hitTimer := ht, isHit := decide (ht > 0), state := "HIT" }
  else
    let distance := targetX - e.x
    let e : Enemy := { e with direction := if distance > 0 then -1 else 1 }
    let r := if e.type == "TROLL" then e.updateTroll dt distance else e.updateSpammer dt distance
    let e : Enemy := { r.1 with x := r.1.x + r.2 * dt }
    let e : Enemy :=
      match map with
      | some m =>
        let hurtbox := e.getHurtbox
        match m.getCollisions hurtbox with
        | [] => e
        | t :: _ => { e with x := e.x + Physics.resolveCollisionX hurtbox t }
      | none => e
    let e : Enemy := { e with vy := e.vy + 0.005 * dt }
    let e : Enemy := { e with y := e.y + e.vy * dt }
    match map with
    | some m =>
      let hurtbox := e.getHurtbox
      match m.getCollisions hurtbox with
      | [] => e
      | t :: _ =>
        let resolutionY := Physics.resolveCollisionY hurtbox t
        let e : Enemy := { e with y := e.y + resolutionY }
        if resolutionY < 0 then { e with vy := 0 } else e
    | none =>
      if e.y ≥ 500 then { e with y := 500, vy := 0 } else e

/-- `Collectible` from `Collectible.ts`. -/
structure Collectible where
  x : ℚ
  y : ℚ
  width : ℚ
  height : ℚ
  type : String
  collected : Bool
deriving DecidableEq, Repr

/-- The `Collectible` constructor. -/
def Collectible.new (x y : ℚ) (ty : String) : Collectible :=
  { x := x, y := y, width := 32, height := 32, type := ty, collected := false }

/-- The rectangle given by a collectible's own `x, y, width, height` fields
(the engine passes the collectible object itself to `checkCollision`). -/
def Collectible.toRect (c : Collectible) : Rect :=
  { x := c.x, y := c.y, width := c.width, height := c.height }

/-- `CharacterNetworkState` from `NetworkTypes.ts`. -/
structure CharacterNetworkState where
  characterType : String
  x : ℚ
  y : ℚ
  vx : ℚ
  vy : ℚ
  hp : ℚ
  maxHp : ℚ
  state : String
  direction : ℤ
  isGrounded : Bool
  isHit : Bool
deriving DecidableEq, Repr

/-- `EnemyState` from `NetworkTypes.ts`. -/
structure EnemyState where
  id : String
  type : String
  x : ℚ
  y : ℚ
  hp : ℚ
  maxHp : ℚ
  state : String
  direction : ℤ
  isHit : Bool
deriving DecidableEq, Repr

/-- `CollectibleState` from `NetworkTypes.ts`. -/
structure CollectibleState where
  type : String
  x : ℚ
  y : ℚ
  width : ℚ
  height : ℚ
  collected : Bool
deriving DecidableEq, Repr

/-- `GameState` from `NetworkTypes.ts`; `players` is a string-keyed record in
entry order. -/
structure GameState where
  players : List (String × CharacterNetworkState)
  enemies : List EnemyState
  collectibles : List CollectibleState
  gameOver : Bool
  gameWon : Bool
deriving DecidableEq, Repr

/-- `Map.get` on an insertion-ordered association list. -/
def mapGet {α : Type} : List (String × α) → String → Option α
  | [], _ => none
  | kv :: rest, k => if kv.1 == k then some kv.2 else mapGet rest k

/-- `Map.set` on an insertion-ordered association list: replace in place if
the key exists, else append. -/
def mapSet {α : Type} : List (String × α) → String → α → List (String × α)
  | [], k, v => [(k, v)]
  | kv :: rest, k, v => if kv.1 == k then (k, v) :: rest else kv :: mapSet rest k v

/-- `GameEngine`'s state: players keyed by session id in insertion order,
enemy and collectible lists, the tile map, and the two sticky flags. -/
structure GameEngine where
  players : List (String × Character)
  enemies : List Enemy
  collectibles : List Collectible
  tileMap : TileMap
  gameOver : Bool
  gameWon : Bool
deriving DecidableEq, Repr

/-- The collectible sweep inside `GameEngine.update`
(`this.collectibles = this.collectibles.filter(...)`): walks the live list in
order; an uncollected collectible hit by the player's hitbox is dropped,
scores 100 and, if it is a `HEART`, heals up to `maxHp`.  Returns the player
after healing, the surviving list, and the emitted events. -/
def sweepCollectibles (p : Character) : List Collectible → Character × List Collectible × List GameEvent
  | [] => (p, [], [])
  | c :: rest =>
    if !c.collected && Physics.checkCollision p.getHitbox (some c.toRect) then
      let p' : Character := if c.type == "HEART" then { p with hp := min p.maxHp (p.hp + 20) } else p
      let r := sweepCollectibles p' rest
      (r.1, r.2.1, GameEvent.score 100 :: r.2.2)
    else
      let r := sweepCollectibles p rest
      (r.1, c :: r.2.1, r.2.2)

/-- The player loop of `GameEngine.update`: each player that has a supplied
input is advanced (`CharacterController.update`), void-checked at 2000, and
sweeps the (shared, threaded) collectible list. -/
def updatePlayersPhase (fricAttack fricRun : ℚ) (o : Oracle) (dt : ℚ)
    (inputs : String → Option InputState) (tm : TileMap) :
    List (String × Character) → List Collectible →
    List (String × Character) × List Collectible × List GameEvent
  | [], cols => ([], cols, [])
  | pr :: rest, cols =>
    match inputs pr.1 with
    | none =>
      let r := updatePlayersPhase fricAttack fricRun o dt inputs tm rest cols
      (pr :: r.1, r.2.1, r.2.2)
    | some input =>
      let p := Character.update fricAttack fricRun (o.rJab pr.1) (o.rKick pr.1) input dt
        (some tm) pr.2
      let p := p.checkVoid 2000
      let s := sweepCollectibles p cols
      let r := updatePlayersPhase fricAttack fricRun o dt inputs tm rest s.2.1
      ((pr.1, s.1) :: r.1, r.2.1, s.2.2 ++ r.2.2)

/-- The closest-player scan of `GameEngine.update`: `closestX` starts at 0,
`minDist` at `Infinity`, strict `<` keeps the first player on ties; with no
players the enemy targets its own `x`. -/
def closestPlayerX (e : Enemy) (players : List (String × Character)) : ℚ :=
  if players.isEmpty then e.x
  else
    (players.foldl (fun (acc : ℚ × Option ℚ) pr =>
      let dist := |pr.2.x - e.x|
      match acc.2 with
      | none => (pr.2.x, some dist)
      | some minDist => if dist < minDist then (pr.2.x, some dist) else acc) (0, none)).1

/-- The body of the per-player collision block in `GameEngine.update`:
enemy-attack-vs-player (gated on `player.hitTimer === 0` and the per-type
active window of `attackTimer`), player-attack-vs-enemy (gated on the stale
state names `JAB`/`KICK`/`HEAVY_PUNCH`), and body push-apart applied to the
player only. -/
def enemyInteractPlayer (e : Enemy) (p : Character) : Enemy × Character × List GameEvent :=
  let ra : Character × List GameEvent :=
    if e.state == "ATTACK" then
      let attackRange : ℚ :=
        if e.type == "SPAMMER" && e.attackTimer > 167 && e.attackTimer < 500 then 40
        else if e.type == "TROLL" && e.attackTimer > 333 && e.attackTimer < 667 then 60
        else 0
      if attackRange > 0 then
        let attackHitbox : Rect :=
          { x := if e.direction == -1 then e.x + 20 else e.x - 20 - attackRange,
            y := e.y - 40, width := attackRange, height := 40 }
        if Physics.checkCollision (some attackHitbox) (some p.getHurtbox) then
          if p.hitTimer == 0 then (p.takeDamage 10, [GameEvent.damage 10]) else (p, [])
        else (p, [])
      else (p, [])
    else (p, [])
  let p := ra.1
  let rb : Enemy × List GameEvent :=
    if p.state == "JAB" || p.state == "KICK" || p.state == "HEAVY_PUNCH" then
      if Physics.checkCollision p.getHitbox (some e.getHurtbox) then
        (e.takeDamage 10, [GameEvent.score 10])
      else (e, [])
    else (e, [])
  let e := rb.1
  let playerHurtbox := p.getHurtbox
  let enemyHurtbox := e.getHurtbox
  let p : Character :=
    if Physics.checkCollision (some enemyHurtbox) (some playerHurtbox) then
      let resolution := Physics.resolveCollision playerHurtbox enemyHurtbox
      { p with x := p.x + resolution.1, y := p.y + resolution.2 }
    else p
  (e, p, ra.2 ++ rb.2)

/-- `players.forEach(...)` inside the enemy loop: the enemy interacts with
every player in order, mutating both as it goes. -/
def interactPlayers (e : Enemy) : List (String × Character) →
    Enemy × List (String × Character) × List GameEvent
  | [] => (e, [], [])
  | pr :: rest =>
    let r1 := enemyInteractPlayer e pr.2
    let r := interactPlayers r1.1 rest
    (r.1, (pr.1, r1.2.1) :: r.2.1, r1.2.2 ++ r.2.2)

/-- The enemy loop of `GameEngine.update`: target the closest player, advance
the enemy AI, then (unless the enemy is flagged hit) run the pairwise
collision block against all players. -/
def updateEnemiesPhase (dt : ℚ) (tm : TileMap) :
    List Enemy → List (String × Character) →
    List Enemy × List (String × Character) × List GameEvent
  | [], players => ([], players, [])
  | e :: rest, players =>
    let closestX := closestPlayerX e players
    let e1 := Enemy.update dt closestX (some tm) e
    let r1 :=
      if e1.isHit then (e1, players, ([] : List GameEvent))
      else interactPlayers e1 players
    let r := updateEnemiesPhase dt tm rest r1.2.1
    (r1.1 :: r.1, r.2.1, r1.2.2 ++ r.2.2)

/-- The dead-enemy sweep at the end of `GameEngine.update`: enemies with
`hp <= 0` are removed and, on a 50% roll (`o.drop` indexed by list position),
drop a `HEART` 32px above their feet, appended to the live collectibles. -/
def sweepDeadEnemies (drop : ℕ → Bool) (idx : ℕ) :
    List Enemy → List Collectible → List Enemy × List Collectible
  | [], cols => ([], cols)
  | e :: rest, cols =>
    if e.hp ≤ 0 then
      let cols := if drop idx then cols ++ [Collectible.new e.x (e.y - 32) "HEART"] else cols
      sweepDeadEnemies drop (idx + 1) rest cols
    else
      let r := sweepDeadEnemies drop (idx + 1) rest cols
      (e :: r.1, r.2)

/-- `GameEngine.update`: no-op at a terminal state, else player phase, enemy
phase, the two terminal-condition checks, and the dead-enemy sweep.  Also
returns the `onScore`/`onDamage` events fired during the tick. -/
def GameEngine.update (fricAttack fricRun : ℚ) (o : Oracle) (dt : ℚ)
    (inputs : String → Option InputState) (g : GameEngine) : GameEngine × List GameEvent :=
  if g.gameOver || g.gameWon then (g, [])
  else
    let r1 := updatePlayersPhase fricAttack fricRun o dt inputs g.tileMap g.players g.collectibles
    let r2 := updateEnemiesPhase dt g.tileMap g.enemies r1.1
    let g2 : GameEngine := { g with players := r2.2.1, enemies := r2.1, collectibles := r1.2.1 }
    let g3 : GameEngine :=
      if !g2.players.isEmpty && g2.players.all (fun pr => decide (pr.2.hp ≤ 0)) && !g2.gameOver
      then { g2 with gameOver := true } else g2
    let g4 : GameEngine :=
      if !g3.players.isEmpty && g3.players.any (fun pr => decide (pr.2.x > 7400)) && !g3.gameWon
      then { g3 with gameWon := true } else g3
    let r3 := sweepDeadEnemies o.drop 0 g4.enemies g4.collectibles
    ({ g4 with enemies := r3.1, collectibles := r3.2 }, r1.2.2 ++ r2.2.2)

/-- The player projection built inside `GameEngine.getSnapshot`. -/
def encodePlayer (p : Character) : CharacterNetworkState :=
  { characterType := p.characterType, x := p.x, y := p.y, vx := p.vx, vy := p.vy,
    hp := p.hp, maxHp := p.maxHp, state := p.state, direction := p.direction,
    isGrounded := p.isGrounded, isHit := p.isHit }

/-- The enemy projection built inside `GameEngine.getSnapshot`. -/
def encodeEnemy (e : Enemy) : EnemyState :=
  { id := e.id, type := e.type, x := e.x, y := e.y, hp := e.hp, maxHp := e.maxHp,
    state := e.state, direction := e.direction, isHit := e.isHit }

/-- The collectible projection built inside `GameEngine.getSnapshot`. -/
def encodeCollectible (c : Collectible) : CollectibleState :=
  { type := c.type, x := c.x, y := c.y, width := c.width, height := c.height,
    collected := c.collected }

/-- `GameEngine.getSnapshot`. -/
def GameEngine.getSnapshot (g : GameEngine) : GameState :=
  { players := g.players.map (fun pr => (pr.1, encodePlayer pr.2)),
    enemies := g.enemies.map encodeEnemy,
    collectibles := g.collectibles.map encodeCollectible,
    gameOver := g.gameOver,
    gameWon := g.gameWon }

/-- The per-player field overwrite in `GameEngine.applySnapshot`
(lines 238–247): every wire field is copied except `maxHp`. -/
def stompPlayer (p : Character) (s : CharacterNetworkState) : Character :=
  { p with
    characterType := s.characterType, x := s.x, y := s.y, vx := s.vx, vy := s.vy,
    hp := s.hp, state := s.state, direction := s.direction, isGrounded := s.isGrounded,
    isHit := s.isHit }

/-- The enemy reconciliation of `GameEngine.applySnapshot`: for each wire
enemy, reuse the old mirror instance with a matching `id` (or construct a new
`Enemy`), overwrite `x, y, hp, state, direction, isHit`, and collect the
results in wire order. -/
def reconcileEnemies (old : List Enemy) : List EnemyState → List Enemy
  | [] => []
  | es :: rest =>
    let enemy :=
      match old.find? (fun e => e.id == es.id) with
      | some e => e
      | none => Enemy.new es.x es.y es.type es.id
    { enemy with
      x := es.x, y := es.y, hp := es.hp, state := es.state,
      direction := es.direction, isHit := es.isHit } :: reconcileEnemies old rest

/-- The player reconciliation loop of `GameEngine.applySnapshot`: fold the
wire entries over the mirror map, creating missing players at the snapshot
position and stomping wire fields. -/
def reconcilePlayers (kept : List (String × Character)) :
    List (String × CharacterNetworkState) → List (String × Character)
  | [] => kept
  | pr :: rest =>
    let base :=
      match mapGet kept pr.1 with
      | some p => p
      | none => Character.new pr.2.x pr.2.y
    reconcilePlayers (mapSet kept pr.1 (stompPlayer base pr.2)) rest

/-- `GameEngine.applySnapshot`. -/
def GameEngine.applySnapshot (st : GameState) (g : GameEngine) : GameEngine :=
  let kept := g.players.filter (fun pr => (mapGet st.players pr.1).isSome)
  let players := reconcilePlayers kept st.players
  let newEnemies := reconcileEnemies g.enemies st.enemies
  let cols := st.collectibles.map (fun cs =>
    { Collectible.new cs.x cs.y cs.type with collected := cs.collected })
  { g with
    players := players, enemies := newEnemies, collectibles := cols,
    gameOver := st.gameOver, gameWon := st.gameWon }

/-! Concrete instances used by the witnesses and counterexamples below. -/

/-- A tile map with no layers (what `TileMap.load` leaves behind on the
asset-failure path, and the smallest legal map). -/
def emptyTileMap : TileMap := { layers := [], tileSize := 64 }

/-- A fixed oracle: both `Math.random() > 0.5` draws answer true, the drop
roll answers false. -/
def oracle0 : Oracle := { rJab := fun _ => true, rKick := fun _ => true, drop := fun _ => false }

/-- An inputs record supplying no input to any session. -/
def noInputs : String → Option InputState := fun _ => none

/-- An inputs record supplying the all-false input to every session. -/
def allIdleInputs : String → Option InputState := fun _ => some idleInput

/-- A player frozen mid-`ATTACKING` inside its active-frame window, standing
at (300, 500) facing right. -/
def attackingPlayer : Character :=
  { Character.new 300 500 with state := "ATTACKING", animationTimer := 100, isGrounded := true }

/-- A `SPAMMER` within melee range of `attackingPlayer`, so that after its AI
step its hurtbox overlaps the player's active hitbox. -/
def spammerNearby : Enemy := Enemy.new 330 500 "SPAMMER" "e1"

/-- Engine state for the player-attack-damage scenario: one `ATTACKING`
player overlapping one `SPAMMER`. -/
def engineAttacking : GameEngine :=
  { players := [("p1", attackingPlayer)], enemies := [spammerNearby], collectibles := [],
    tileMap := emptyTileMap, gameOver := false, gameWon := false }

/-- The same player frozen mid-`JAB` instead. -/
def jabbingPlayer : Character :=
  { Character.new 300 500 with state := "JAB", animationTimer := 100, isGrounded := true }

/-- The same scenario with the player's state replaced by `JAB`. -/
def engineJabbing : GameEngine :=
  { players := [("p1", jabbingPlayer)], enemies := [spammerNearby],
    collectibles := [], tileMap := emptyTileMap, gameOver := false, gameWon := false }

/-- `spammerNearby` after its AI step at `dt = 16.67` targeting x = 300: it
starts an attack (`attackTimer = 667`), turns to face right, and sinks just
below the absent floor under gravity. -/
def spammerTicked : Enemy :=
  { Enemy.new 330 500 "SPAMMER" "e1" with
    state := "ATTACK", attackTimer := 667, direction := 1,
    y := 1002778889/2000000, vy := 1667/20000 }

/-- An idle player standing at (100, 500). -/
def idlePlayer : Character := { Character.new 100 500 with isGrounded := true }

/-- A `HEART` collectible whose rectangle overlaps `idlePlayer`'s body. -/
def heartUnderfoot : Collectible := Collectible.new 84 470 "HEART"

/-- Engine state for the collectible scenario: one idle player standing on an
uncollected heart. -/
def engineHeart : GameEngine :=
  { players := [("p1", idlePlayer)], enemies := [], collectibles := [heartUnderfoot],
    tileMap := emptyTileMap, gameOver := false, gameWon := false }

/-- The state of `idlePlayer` after one tick with the all-false input at
`dt = 16.67` on the empty map: gravity pulls it just below the (absent)
floor, so it is airborne in state `JUMPING`; hp untouched. -/
def heartTickPlayer : Character :=
  { Character.new 100 500 with
    y := 1002778889/2000000, vy := 1667/20000, state := "JUMPING" }

/-- The engine state after one tick of `engineHeart`: the heart is still
live even though the player's body overlaps it. -/
def heartTickEngine : GameEngine :=
  { players := [("p1", heartTickPlayer)], enemies := [], collectibles := [heartUnderfoot],
    tileMap := emptyTileMap, gameOver := false, gameWon := false }

/-- Engine state for the win/lose independence scenario: player "a" has 0 hp,
player "b" is past the finish line with full hp. -/
def engineWinLose : GameEngine :=
  { players := [("a", { Character.new 250 300 with hp := 0 }),
                ("b", { Character.new 7450 300 with hp := 100 })],
    enemies := [], collectibles := [], tileMap := emptyTileMap,
    gameOver := false, gameWon := false }

/-- A terminal engine state (`gameOver` already set). -/
def engineTerminal : GameEngine :=
  { players := [("a", Character.new 250 300)],
    enemies := [Enemy.new 800 100 "SPAMMER" "s1"],
    collectibles := [Collectible.new 40 40 "HEART"], tileMap := emptyTileMap,
    gameOver := true, gameWon := false }

/-- An engine with empty actor populations, used as a mirror. -/
def emptyEngine : GameEngine :=
  { players := [], enemies := [], collectibles := [], tileMap := emptyTileMap,
    gameOver := false, gameWon := false }

/-- An engine owning a single engine-built `TROLL` whose hp was fought down
to 80 (`maxHp` is the constructor's type baseline 150). -/
def engineTroll : GameEngine :=
  { emptyEngine with enemies := [{ Enemy.new 10 20 "TROLL" "e1" with hp := 80 }] }

/-- A wire player record carrying `maxHp = 50`, different from the
constructor default 100. -/
def wirePlayer50 : CharacterNetworkState :=
  { characterType := "FRESH", x := 10, y := 20, vx := 0, vy := 0, hp := 70, maxHp := 50,
    state := "IDLE", direction := 1, isGrounded := true, isHit := false }

/-- A wire snapshot whose single player is `wirePlayer50`. -/
def snapshotMaxHp50 : GameState :=
  { players := [("p1", wirePlayer50)],
    enemies := [], collectibles := [], gameOver := false, gameWon := false }

/-- A player 5 ms into the hit-invulnerability window. -/
def hitPlayer : Character := { Character.new 250 300 with hitTimer := 5 }

/-- A player whose hit timer has underrun to a negative value. -/
def immunePlayer : Character := { Character.new 250 300 with hitTimer := -3, isGrounded := true }

/-- Engine state for the permanent-immunity scenario. -/
def engineImmune : GameEngine :=
  { players := [("p1", immunePlayer)], enemies := [Enemy.new 330 300 "SPAMMER" "e2"],
    collectibles := [], tileMap := emptyTileMap, gameOver := false, gameWon := false }

/-- A character below the death plane, with a recorded safe position. -/
def fallenPlayer : Character :=
  { Character.new 600 2345 with vx := 3, vy := 7, safePosition := (111, 222), hp := 90 }

/-- A grounded character drifting right at `vx = 1` with no input held. -/
def driftingPlayer : Character := { Character.new 250 500 with vx := 1, isGrounded := true }

/-! ## C7: hit-invulnerability window -/

/-- C7: for every character with `hitTimer > 0`, `takeDamage` (with any
amount) leaves the character — in particular `hp` — unchanged; once the
timer is no longer positive, a hit subtracts the amount from `hp` and sets
`hitTimer` to 500 ms. -/
theorem takeDamage_invulnerability (c : Character) (amount : ℚ) :
    (c.hitTimer > 0 → c.takeDamage amount = c) ∧
    (c.hitTimer ≤ 0 →
      (c.takeDamage amount).hp = c.hp - amount ∧ (c.takeDamage amount).hitTimer = 500) := by
  constructor
  · intro h
    simp [Character.takeDamage, h]
  · intro h
    simp [Character.takeDamage, not_lt.mpr h]

/-- Witness for C7 at concrete inputs: a player 5 ms into the window shrugs
off a 10-damage hit, a fresh player takes it and re-arms the timer. -/
theorem takeDamage_invulnerability_witness :
    hitPlayer.takeDamage 10 = hitPlayer ∧
    ((Character.new 250 300).takeDamage 10).hp = (Character.new 250 300).hp - 10 ∧
    ((Character.new 250 300).takeDamage 10).hitTimer = 500 := by
  refine ⟨(takeDamage_invulnerability hitPlayer 10).1 (by decide), ?_⟩
  exact (takeDamage_invulnerability (Character.new 250 300) 10).2 (by decide)

/-! ## C8: void recovery -/

/-- C8: a character whose `y` exceeds the death plane 2000 loses exactly 20
hp, is teleported to its recorded `safePosition`, and has both velocity
components zeroed; a character at or above the plane is untouched by the
void check. -/
theorem checkVoid_recovery (c : Character) :
    (c.y > 2000 → c.checkVoid 2000 =
      { c with
        hp := c.hp - 20, x := c.safePosition.1, y := c.safePosition.2,
        vx := 0, vy := 0 }) ∧
    (c.y ≤ 2000 → c.checkVoid 2000 = c) := by
  constructor
  · intro h
    simp [Character.checkVoid, h]
  · intro h
    simp [Character.checkVoid, not_lt.mpr h]

/-- Witness for C8 at concrete inputs: a fallen player at `y = 2345` respawns
at its safe position (111, 222) with 70 hp; a player at `y = 500` is
unchanged. -/
theorem checkVoid_recovery_witness :
    fallenPlayer.checkVoid 2000 =
      { fallenPlayer with hp := 70, x := 111, y := 222, vx := 0, vy := 0 } ∧
    idlePlayer.checkVoid 2000 = idlePlayer := by
  constructor
  · rw [(checkVoid_recovery fallenPlayer).1 (by decide)]
    norm_num [fallenPlayer, Character.new]
  · exact (checkVoid_recovery idlePlayer).2 (by decide)

/-! ## C2: the tick is a no-op at a terminal state -/

/-- C2: once `gameOver` or `gameWon` is true, a tick with any `dt`, inputs,
friction factors and oracle returns the engine unchanged (players, enemies,
collectibles, tile map and both flags) and fires no events, and any sequence
of repeated ticks likewise leaves the engine unchanged. -/
theorem terminal_tick_noop (g : GameEngine) (h : g.gameOver = true ∨ g.gameWon = true) :
    (∀ (fricAttack fricRun : ℚ) (o : Oracle) (dt : ℚ) (inputs : String → Option InputState),
      g.update fricAttack fricRun o dt inputs = (g, [])) ∧
    (∀ steps : List ((ℚ × ℚ) × Oracle × ℚ × (String → Option InputState)),
      steps.foldl (fun gg s => (gg.update s.1.1 s.1.2 s.2.1 s.2.2.1 s.2.2.2).1) g = g) := by
  have h1 : ∀ (fricAttack fricRun : ℚ) (o : Oracle) (dt : ℚ)
      (inputs : String → Option InputState), g.update fricAttack fricRun o dt inputs = (g, []) := by
    intro fricAttack fricRun o dt inputs
    rcases h with h | h <;> simp [GameEngine.update, h]
  refine ⟨h1, ?_⟩
  intro steps
  induction steps with
  | nil => rfl
  | cons s rest ih => simpa [h1] using ih

/-- Witness for C2 at concrete inputs: the terminal engine survives a single
tick and a two-tick sequence byte-for-byte. -/
theorem terminal_tick_noop_witness :
    engineTerminal.update (1/2) (9/10) oracle0 (1667/100) allIdleInputs = (engineTerminal, []) ∧
    [((1/2, 9/10), oracle0, 1667/100, allIdleInputs),
     ((1/2, 9/10), oracle0, 20, noInputs)].foldl
      (fun gg s => (gg.update s.1.1 s.1.2 s.2.1 s.2.2.1 s.2.2.2).1) engineTerminal =
      engineTerminal := by
  have h := terminal_tick_noop engineTerminal (Or.inl rfl)
  exact ⟨h.1 _ _ _ _ _, h.2 _⟩

/-! ## C4: player reconciliation in `applySnapshot` -/

/-- `mapSet` then `mapGet` at the same key yields the new value. -/
theorem mapGet_mapSet_self {α : Type} (m : List (String × α)) (k : String) (v : α) :
    mapGet (mapSet m k v) k = some v := by
  induction m with
  | nil => simp [mapSet, mapGet]
  | cons kv rest ih =>
    by_cases h : kv.1 = k
    · simp [mapSet, mapGet, h]
    · simp only [mapSet, mapGet, beq_iff_eq, if_neg h]
      exact ih

/-- `mapSet` at one key does not disturb `mapGet` at another. -/
theorem mapGet_mapSet_ne {α : Type} (m : List (String × α)) (k k' : String) (v : α)
    (h : k' ≠ k) : mapGet (mapSet m k v) k' = mapGet m k' := by
  have h' : ¬(k = k') := fun hh => h hh.symm
  induction m with
  | nil => simp [mapSet, mapGet, h']
  | cons kv rest ih =>
    obtain ⟨a, b⟩ := kv
    by_cases hk : a = k
    · subst hk
      simp [mapSet, mapGet, h']
    · simp only [mapSet, beq_iff_eq, if_neg hk, mapGet]
      by_cases hk' : a = k'
      · simp [hk']
      · simp only [beq_iff_eq, if_neg hk']
        exact ih

/-- `mapGet` through a key-based filter. -/
theorem mapGet_filter {α : Type} (q : String → Bool) (m : List (String × α)) (k : String) :
    mapGet (m.filter (fun kv => q kv.1)) k = if q k then mapGet m k else none := by
  induction m with
  | nil => simp [mapGet]
  | cons kv rest ih =>
    obtain ⟨a, b⟩ := kv
    by_cases hk : a = k
    · subst hk
      cases hq : q a <;> simp [List.filter, mapGet, hq, ih]
    · cases hq : q a <;> simp [List.filter, mapGet, hq, ih, hk]

/-- A key whose `mapGet` is `none` heads no entry. -/
theorem not_mem_keys_of_mapGet_eq_none {α : Type} (m : List (String × α)) (k : String)
    (h : mapGet m k = none) : k ∉ m.map Prod.fst := by
  induction m with
  | nil => simp
  | cons kv rest ih =>
    obtain ⟨a, b⟩ := kv
    by_cases hk : a = k
    · simp [mapGet, hk] at h
    · simp only [mapGet, beq_iff_eq, if_neg hk] at h
      simp only [List.map_cons, List.mem_cons, not_or]
      exact ⟨fun hh => hk hh.symm, ih h⟩

/-- An entry's key has a `some` lookup. -/
theorem mapGet_isSome_of_mem {α : Type} (m : List (String × α)) (k : String) (v : α)
    (h : (k, v) ∈ m) : (mapGet m k).isSome := by
  induction m with
  | nil => simp at h
  | cons kv rest ih =>
    obtain ⟨a, b⟩ := kv
    by_cases hk : a = k
    · simp [mapGet, hk]
    · simp only [mapGet, beq_iff_eq, if_neg hk]
      rcases List.mem_cons.mp h with h | h
      · exact absurd (congrArg Prod.fst h.symm) hk
      · exact ih h

/-- `reconcilePlayers` leaves keys absent from the wire record untouched. -/
theorem reconcilePlayers_mapGet_of_not_mem (sts : List (String × CharacterNetworkState))
    (kept : List (String × Character)) (id : String) (h : id ∉ sts.map Prod.fst) :
    mapGet (reconcilePlayers kept sts) id = mapGet kept id := by
  induction sts generalizing kept with
  | nil => rfl
  | cons pr rest ih =>
    simp only [List.map_cons, List.mem_cons, not_or] at h
    rw [reconcilePlayers, ih _ h.2, mapGet_mapSet_ne _ _ _ _ h.1]

/-- `reconcilePlayers` maps a wire entry (under key uniqueness) to the stomp
of the kept mirror player, or of a freshly constructed one. -/
theorem reconcilePlayers_mapGet_of_mem (sts : List (String × CharacterNetworkState))
    (kept : List (String × Character)) (id : String) (ps : CharacterNetworkState)
    (hnd : (sts.map Prod.fst).Nodup) (h : (id, ps) ∈ sts) :
    mapGet (reconcilePlayers kept sts) id =
      some (stompPlayer
        (match mapGet kept id with
         | some p => p
         | none => Character.new ps.x ps.y) ps) := by
  induction sts generalizing kept with
  | nil => simp at h
  | cons pr rest ih =>
    rw [List.map_cons, List.nodup_cons] at hnd
    rcases List.mem_cons.mp h with h | h
    · subst h
      rw [reconcilePlayers, reconcilePlayers_mapGet_of_not_mem _ _ _ hnd.1,
        mapGet_mapSet_self]
    · have hne : pr.1 ≠ id := by
        intro he
        exact hnd.1 (he ▸ (List.mem_map.mpr ⟨(id, ps), h, rfl⟩))
      rw [reconcilePlayers, ih _ hnd.2 h, mapGet_mapSet_ne _ _ _ _ (Ne.symm hne)]

/-- C4 counterexample: `applySnapshot` does not copy the wire field `maxHp`.
Applying a snapshot whose player carries `maxHp = 50` to an empty mirror
leaves the mirror player at the constructor default `maxHp = 100`, so not
every wire field equals the snapshot's value. -/
theorem applySnapshot_maxHp_counterexample :
    (mapGet (emptyEngine.applySnapshot snapshotMaxHp50).players "p1").map Character.maxHp =
      some 100 ∧
    (mapGet snapshotMaxHp50.players "p1").map CharacterNetworkState.maxHp = some 50 := by
  constructor <;> rfl

/-- C4 (amended): after `applySnapshot state` (with the record's keys
unique, as JavaScript object keys are), every id in `state.players` maps to
a mirror Character — newly constructed at the snapshot position if the id
was absent — whose wire fields `characterType, x, y, vx, vy, hp, state,
direction, isGrounded, isHit` equal the snapshot's values, while `maxHp` is
not copied: it keeps the prior mirror value (the constructor's 100 for a new
player); and every mirror id absent from `state.players` is deleted. -/
theorem applySnapshot_player_stomp (g : GameEngine) (st : GameState)
    (hnd : (st.players.map Prod.fst).Nodup) :
    (∀ id ps, (id, ps) ∈ st.players →
      ∃ p, mapGet (g.applySnapshot st).players id = some p ∧
        p.characterType = ps.characterType ∧ p.x = ps.x ∧ p.y = ps.y ∧ p.vx = ps.vx ∧
        p.vy = ps.vy ∧ p.hp = ps.hp ∧ p.state = ps.state ∧ p.direction = ps.direction ∧
        p.isGrounded = ps.isGrounded ∧ p.isHit = ps.isHit ∧
        p.maxHp = (match mapGet g.players id with
          | some old => old.maxHp
          | none => (100 : ℚ))) ∧
    (∀ id, mapGet st.players id = none → mapGet (g.applySnapshot st).players id = none) := by
  have hplayers : (g.applySnapshot st).players =
      reconcilePlayers (g.players.filter (fun pr => (mapGet st.players pr.1).isSome))
        st.players := rfl
  constructor
  · intro id ps h
    have hkept : mapGet (g.players.filter (fun pr => (mapGet st.players pr.1).isSome)) id =
        mapGet g.players id := by
      rw [mapGet_filter (fun k => (mapGet st.players k).isSome) g.players id,
        if_pos (mapGet_isSome_of_mem st.players id ps h)]
    rw [hplayers, reconcilePlayers_mapGet_of_mem st.players _ id ps hnd h, hkept]
    cases hold : mapGet g.players id with
    | none =>
      exact ⟨_, rfl, rfl, rfl, rfl, rfl, rfl, rfl, rfl, rfl, rfl, rfl, rfl⟩
    | some old =>
      exact ⟨_, rfl, rfl, rfl, rfl, rfl, rfl, rfl, rfl, rfl, rfl, rfl, rfl⟩
  · intro id h
    rw [hplayers,
      reconcilePlayers_mapGet_of_not_mem st.players _ id (not_mem_keys_of_mapGet_eq_none _ _ h),
      mapGet_filter (fun k => (mapGet st.players k).isSome) g.players id, h]
    simp

/-- Witness for amended C4 at a concrete input: the wire entry
`("p1", wirePlayer50)` applied to the empty mirror. -/
theorem applySnapshot_player_stomp_witness :
    ∃ p, mapGet (emptyEngine.applySnapshot snapshotMaxHp50).players "p1" = some p ∧
      p.characterType = wirePlayer50.characterType ∧ p.x = wirePlayer50.x ∧
      p.y = wirePlayer50.y ∧ p.vx = wirePlayer50.vx ∧ p.vy = wirePlayer50.vy ∧
      p.hp = wirePlayer50.hp ∧ p.state = wirePlayer50.state ∧
      p.direction = wirePlayer50.direction ∧ p.isGrounded = wirePlayer50.isGrounded ∧
      p.isHit = wirePlayer50.isHit ∧
      p.maxHp = (match mapGet emptyEngine.players "p1" with
        | some old => old.maxHp
        | none => (100 : ℚ)) :=
  (applySnapshot_player_stomp emptyEngine snapshotMaxHp50 (by decide)).1 "p1" wirePlayer50
    (by decide)

/-! ## C5: enemy snapshot round-trip and identity preservation -/

/-- `reconcileEnemies` is the in-order map of the per-entry reuse-or-create
followed by the wire-field overwrite. -/
theorem reconcileEnemies_eq_map (old : List Enemy) (sts : List EnemyState) :
    reconcileEnemies old sts = sts.map (fun es =>
      { (match old.find? (fun e => e.id == es.id) with
         | some e => e
         | none => Enemy.new es.x es.y es.type es.id) with
        x := es.x, y := es.y, hp := es.hp, state := es.state,
        direction := es.direction, isHit := es.isHit }) := by
  induction sts with
  | nil => rfl
  | cons es rest ih => rw [reconcileEnemies, ih]; rfl

/-- C5: (round trip) encoding an engine whose enemies carry the
constructor's per-type `maxHp` baseline — as every engine-built enemy does —
then reconciling into an empty mirror and re-encoding reproduces the enemy
list field for field; (identity) a mirror enemy found by `id` for a wire
entry survives reconciliation as the same instance: all fields that the
stomp does not overwrite (`type, maxHp, vy, hitTimer, attackTimer`, and the
source's per-instance renderer state they stand for) are retained, across
any number of successive reconciliations; (drop) every reconciled enemy's
`id` comes from the snapshot, so mirror enemies whose id is absent are
dropped. -/
theorem snapshot_enemy_roundtrip (g m : GameEngine) (hm : m.enemies = [])
    (hmax : ∀ e ∈ g.enemies, e.maxHp = (if e.type == "SPAMMER" then (50 : ℚ) else 150)) :
    ((m.applySnapshot g.getSnapshot).getSnapshot).enemies = g.getSnapshot.enemies ∧
    (∀ (m2 : GameEngine) (st : GameState) (es : EnemyState) (e : Enemy),
      es ∈ st.enemies → m2.enemies.find? (fun e2 => e2.id == es.id) = some e →
      ∃ e2 ∈ (m2.applySnapshot st).enemies,
        e2.id = es.id ∧ e2.type = e.type ∧ e2.maxHp = e.maxHp ∧ e2.vy = e.vy ∧
        e2.hitTimer = e.hitTimer ∧ e2.attackTimer = e.attackTimer ∧
        e2.x = es.x ∧ e2.y = es.y ∧ e2.hp = es.hp ∧ e2.state = es.state ∧
        e2.direction = es.direction ∧ e2.isHit = es.isHit) ∧
    (∀ (m2 : GameEngine) (st : GameState) (e2 : Enemy),
      e2 ∈ (m2.applySnapshot st).enemies → ∃ es ∈ st.enemies, es.id = e2.id) := by
  have henemies : ∀ (m2 : GameEngine) (st : GameState),
      (m2.applySnapshot st).enemies = reconcileEnemies m2.enemies st.enemies :=
    fun _ _ => rfl
  refine ⟨?_, ?_, ?_⟩
  · rw [GameEngine.getSnapshot, henemies, hm, GameEngine.getSnapshot]
    simp only [reconcileEnemies_eq_map, List.map_map, List.find?_nil]
    apply List.map_congr_left
    intro e he
    have hb := hmax e he
    simp only [Function.comp]
    simp [encodeEnemy, Enemy.new, hb]
  · intro m2 st es e hes hfind
    rw [henemies, reconcileEnemies_eq_map]
    refine ⟨_, List.mem_map.mpr ⟨es, hes, rfl⟩, ?_⟩
    rw [hfind]
    have hid : e.id = es.id := by
      have := List.find?_some hfind
      simpa using this
    exact ⟨hid, rfl, rfl, rfl, rfl, rfl, rfl, rfl, rfl, rfl, rfl, rfl⟩
  · intro m2 st e2 he2
    rw [henemies, reconcileEnemies_eq_map] at he2
    rcases List.mem_map.mp he2 with ⟨es, hes, heq⟩
    refine ⟨es, hes, ?_⟩
    subst heq
    cases hfind : m2.enemies.find? (fun e => e.id == es.id) with
    | none => simp [hfind, Enemy.new]
    | some e =>
      have hid : e.id = es.id := by simpa using List.find?_some hfind
      simp [hfind, hid]

/-- Witness for C5 at a concrete input: one engine-built `TROLL` with
`hp = 80`, reconciled into the empty mirror. -/
theorem snapshot_enemy_roundtrip_witness :
    ((emptyEngine.applySnapshot engineTroll.getSnapshot).getSnapshot).enemies =
      engineTroll.getSnapshot.enemies ∧
    (∀ (m2 : GameEngine) (st : GameState) (es : EnemyState) (e : Enemy),
      es ∈ st.enemies → m2.enemies.find? (fun e2 => e2.id == es.id) = some e →
      ∃ e2 ∈ (m2.applySnapshot st).enemies,
        e2.id = es.id ∧ e2.type = e.type ∧ e2.maxHp = e.maxHp ∧ e2.vy = e.vy ∧
        e2.hitTimer = e.hitTimer ∧ e2.attackTimer = e.attackTimer ∧
        e2.x = es.x ∧ e2.y = es.y ∧ e2.hp = es.hp ∧ e2.state = es.state ∧
        e2.direction = es.direction ∧ e2.isHit = es.isHit) ∧
    (∀ (m2 : GameEngine) (st : GameState) (e2 : Enemy),
      e2 ∈ (m2.applySnapshot st).enemies → ∃ es ∈ st.enemies, es.id = e2.id) :=
  snapshot_enemy_roundtrip engineTroll emptyEngine rfl
    (by
      intro e he
      rw [show engineTroll.enemies = [{ Enemy.new 10 20 "TROLL" "e1" with hp := 80 }] from rfl,
        List.mem_singleton] at he
      subst he
      rfl)


/-! ## C6: collectible pickup -/

/-- The empty tile map reports no collisions. -/
theorem getCollisions_emptyTileMap (r : Rect) : emptyTileMap.getCollisions r = [] := rfl

/-- One tick of `idlePlayer` with the all-false input on the empty map. -/
theorem idlePlayer_tick :
    Character.update (1/2) (9/10) true true idleInput (1667/100) (some emptyTileMap) idlePlayer =
      heartTickPlayer := by
  norm_num +decide [Character.update, Character.tickHitTimer, Character.stepCombat,
    Character.handleMovement, Character.stepPhysics, Character.resolveMapX,
    Character.resolveMapY, Character.stepStateGround,
    Character.stepTriggers, Character.setState, isAttackState, ATTACK_STATES,
    getCollisions_emptyTileMap, idleInput, idlePlayer, Character.new, heartTickPlayer, min_def]

/-- The ticked player is far above the death plane. -/
theorem heartTickPlayer_checkVoid : heartTickPlayer.checkVoid 2000 = heartTickPlayer := by
  norm_num [Character.checkVoid, heartTickPlayer, Character.new]

/-- The ticked player sweeps the heart without collecting it: its attack
hitbox is `null` in state `JUMPING`. -/
theorem heartTickPlayer_sweep :
    sweepCollectibles heartTickPlayer [heartUnderfoot] =
      (heartTickPlayer, [heartUnderfoot], []) := by
  norm_num +decide [sweepCollectibles, Character.getHitbox, isAttackState, ATTACK_STATES,
    Physics.checkCollision, heartTickPlayer, Character.new, heartUnderfoot, Collectible.new]

/-- The player phase of the `engineHeart` tick. -/
theorem engineHeart_phase1 :
    updatePlayersPhase (1/2) (9/10) oracle0 (1667/100) allIdleInputs emptyTileMap
      [("p1", idlePlayer)] [heartUnderfoot] =
      ([("p1", heartTickPlayer)], [heartUnderfoot], []) := by
  simp only [updatePlayersPhase, allIdleInputs, oracle0, idlePlayer_tick,
    heartTickPlayer_checkVoid, heartTickPlayer_sweep, List.nil_append, List.append_nil]

/-- C6 counterexample: the tick of `engineHeart` — an idle player standing on
an uncollected `HEART`, with an input supplied — leaves the heart live,
fires no score event and heals nothing, even though the collectible overlaps
the character's body (hurtbox) before and after the tick.  Collection is
gated on the attack hitbox, not on body overlap. -/
theorem collectible_body_overlap_counterexample :
    engineHeart.update (1/2) (9/10) oracle0 (1667/100) allIdleInputs = (heartTickEngine, []) ∧
    heartTickEngine.collectibles = [heartUnderfoot] ∧
    heartTickPlayer.hp = idlePlayer.hp ∧
    Physics.checkCollision (some heartTickPlayer.getHurtbox) (some heartUnderfoot.toRect) = true ∧
    Physics.checkCollision (some idlePlayer.getHurtbox) (some heartUnderfoot.toRect) = true := by
  refine ⟨?_, rfl, rfl, ?_, ?_⟩
  · simp only [GameEngine.update, engineHeart, engineHeart_phase1]
    norm_num +decide [updateEnemiesPhase, sweepDeadEnemies, heartTickEngine, heartTickPlayer,
      Character.new, emptyTileMap]
  · norm_num +decide [Physics.checkCollision, Character.getHurtbox, Collectible.toRect,
      heartTickPlayer, Character.new, heartUnderfoot, Collectible.new]
  · norm_num +decide [Physics.checkCollision, Character.getHurtbox, Collectible.toRect,
      idlePlayer, Character.new, heartUnderfoot, Collectible.new]

/-- A pure hp update does not move the attack hitbox. -/
theorem getHitbox_ite_heal (p : Character) (b : Bool) (q : ℚ) :
    (if b then { p with hp := q } else p).getHitbox = p.getHitbox := by
  cases b <;> rfl

/-- A pure hp update keeps `maxHp`. -/
theorem maxHp_ite_heal (p : Character) (b : Bool) (q : ℚ) :
    (if b then { p with hp := q } else p).maxHp = p.maxHp := by
  cases b <;> rfl

/-- The hp of a conditional heal. -/
theorem hp_ite_heal (p : Character) (b : Bool) (q : ℚ) :
    (if b then { p with hp := q } else p).hp = if b then q else p.hp := by
  cases b <;> rfl

/-- Collapsing consecutive hp updates. -/
theorem update_hp_ite_heal (p : Character) (b : Bool) (q r : ℚ) :
    ({ (if b then ({ p with hp := q } : Character) else p) with hp := r } : Character) =
      { p with hp := r } := by
  cases b <;> rfl

/-- The survivors of the collectible sweep: exactly the collectibles that are
already `collected` (stuck) or missed by the player's attack hitbox. -/
theorem sweepCollectibles_kept (p : Character) (cs : List Collectible) :
    (sweepCollectibles p cs).2.1 =
      cs.filter (fun c => !(!c.collected && Physics.checkCollision p.getHitbox (some c.toRect))) := by
  induction cs generalizing p with
  | nil => rfl
  | cons c rest ih =>
    cases hc : (!c.collected && Physics.checkCollision p.getHitbox (some c.toRect)) with
    | true =>
      have ih' := ih (if c.type == "HEART" then { p with hp := min p.maxHp (p.hp + 20) } else p)
      simp only [getHitbox_ite_heal] at ih'
      simp only [sweepCollectibles, hc, if_true, List.filter_cons, Bool.not_true, if_false]
      exact ih'
    | false =>
      simp only [sweepCollectibles, hc, Bool.false_eq_true, if_false, List.filter_cons,
        Bool.not_false, if_true]
      rw [ih p]

/-- Every collected collectible signals one 100-point score event, in list
order. -/
theorem sweepCollectibles_events (p : Character) (cs : List Collectible) :
    (sweepCollectibles p cs).2.2 =
      (cs.filter (fun c => !c.collected && Physics.checkCollision p.getHitbox (some c.toRect))).map
        (fun _ => GameEvent.score 100) := by
  induction cs generalizing p with
  | nil => rfl
  | cons c rest ih =>
    cases hc : (!c.collected && Physics.checkCollision p.getHitbox (some c.toRect)) with
    | true =>
      have ih' := ih (if c.type == "HEART" then { p with hp := min p.maxHp (p.hp + 20) } else p)
      simp only [getHitbox_ite_heal] at ih'
      simp only [sweepCollectibles, hc, if_true, List.filter_cons, List.map_cons]
      rw [ih']
    | false =>
      simp only [sweepCollectibles, hc, Bool.false_eq_true, if_false, List.filter_cons]
      rw [ih p]

/-- The hp after the sweep: each collected `HEART` heals 20, capped at
`maxHp`, applied in list order. -/
theorem sweepCollectibles_hp (p : Character) (cs : List Collectible) :
    (sweepCollectibles p cs).1.hp =
      (cs.filter (fun c => !c.collected && Physics.checkCollision p.getHitbox (some c.toRect))).foldl
        (fun h c => if c.type == "HEART" then min p.maxHp (h + 20) else h) p.hp := by
  induction cs generalizing p with
  | nil => rfl
  | cons c rest ih =>
    cases hc : (!c.collected && Physics.checkCollision p.getHitbox (some c.toRect)) with
    | true =>
      have ih' := ih (if c.type == "HEART" then { p with hp := min p.maxHp (p.hp + 20) } else p)
      simp only [getHitbox_ite_heal, maxHp_ite_heal, hp_ite_heal] at ih'
      simp only [sweepCollectibles, hc, if_true, List.filter_cons, List.foldl_cons]
      exact ih'
    | false =>
      simp only [sweepCollectibles, hc, Bool.false_eq_true, if_false, List.filter_cons]
      rw [ih p]

/-- The sweep changes nothing about the player except `hp`. -/
theorem sweepCollectibles_frame (p : Character) (cs : List Collectible) :
    (sweepCollectibles p cs).1 = { p with hp := (sweepCollectibles p cs).1.hp } := by
  induction cs generalizing p with
  | nil => rfl
  | cons c rest ih =>
    cases hc : (!c.collected && Physics.checkCollision p.getHitbox (some c.toRect)) with
    | true =>
      have ih' := ih (if c.type == "HEART" then { p with hp := min p.maxHp (p.hp + 20) } else p)
      rw [update_hp_ite_heal] at ih'
      simp only [sweepCollectibles, hc, if_true]
      exact ih'
    | false =>
      simp only [sweepCollectibles, hc, Bool.false_eq_true, if_false]
      exact ih p

/-- C6 (amended): in the per-player collectible sweep of a tick, a live
collectible is collected — removed from the live list, signalling a
100-point score event, and (when it is a `HEART`) healing 20 hp capped at
`maxHp` — exactly when it is not yet `collected` and the player's active
attack hitbox (`getHitbox`, non-null only during an attack's active frames)
overlaps its rectangle; body overlap does not collect, and the sweep changes
nothing about the player but `hp`. -/
theorem collectible_sweep_spec (p : Character) (cs : List Collectible) :
    (sweepCollectibles p cs).2.1 =
      cs.filter (fun c => !(!c.collected && Physics.checkCollision p.getHitbox (some c.toRect))) ∧
    (sweepCollectibles p cs).2.2 =
      (cs.filter (fun c => !c.collected && Physics.checkCollision p.getHitbox (some c.toRect))).map
        (fun _ => GameEvent.score 100) ∧
    (sweepCollectibles p cs).1.hp =
      (cs.filter (fun c => !c.collected && Physics.checkCollision p.getHitbox (some c.toRect))).foldl
        (fun h c => if c.type == "HEART" then min p.maxHp (h + 20) else h) p.hp ∧
    (sweepCollectibles p cs).1 = { p with hp := (sweepCollectibles p cs).1.hp } :=
  ⟨sweepCollectibles_kept p cs, sweepCollectibles_events p cs, sweepCollectibles_hp p cs,
    sweepCollectibles_frame p cs⟩

/-! ## C3: player attacks damaging enemies -/

/-- With a single player the enemy targets that player's x (the first fold
step always beats the `Infinity` initial distance). -/
theorem closestPlayerX_single (e : Enemy) (id : String) (q : Character) :
    closestPlayerX e [(id, q)] = q.x := rfl

/-- The attacking player stands at x = 300. -/
theorem attackingPlayer_x : attackingPlayer.x = 300 := rfl

/-- The jabbing player stands at x = 300. -/
theorem jabbingPlayer_x : jabbingPlayer.x = 300 := rfl

/-- The AI step of `spammerNearby` at `dt = 16.67` targeting x = 300. -/
theorem spammerNearby_tick :
    Enemy.update (1667/100) 300 (some emptyTileMap) spammerNearby = spammerTicked := by
  norm_num +decide [Enemy.update, Enemy.updateSpammer, Enemy.updateTroll, signQ,
    getCollisions_emptyTileMap, spammerNearby, spammerTicked, Enemy.new]

/-- The pairwise interaction of the freshly attacking spammer with the
`ATTACKING` player: no branch fires — in particular the player-attack branch
is skipped because `ATTACKING` is not one of the stale names
`JAB`/`KICK`/`HEAVY_PUNCH` — even though the player's active hitbox overlaps
the enemy's hurtbox. -/
theorem spammer_vs_attacking :
    enemyInteractPlayer spammerTicked attackingPlayer =
      (spammerTicked, attackingPlayer, []) := by
  norm_num +decide [enemyInteractPlayer, Physics.checkCollision, Character.getHurtbox,
    Character.getHitbox, Enemy.getHurtbox, isAttackState, ATTACK_STATES, spammerTicked,
    attackingPlayer, Enemy.new, Character.new]

/-- The same interaction with the player's state replaced by `JAB`: the
player-attack branch fires and the enemy takes 10 damage. -/
theorem spammer_vs_jabbing :
    enemyInteractPlayer spammerTicked jabbingPlayer =
      ({ spammerTicked with hp := 40, isHit := true, hitTimer := 333 },
        jabbingPlayer, [GameEvent.score 10]) := by
  norm_num +decide [enemyInteractPlayer, Physics.checkCollision, Character.getHurtbox,
    Character.getHitbox, Enemy.getHurtbox, Enemy.takeDamage, isAttackState, ATTACK_STATES,
    spammerTicked, jabbingPlayer, Enemy.new, Character.new]

/-- C3: the engine's player-attack gate compares `player.state` against the
stale names `JAB`, `KICK`, `HEAVY_PUNCH`, of which only `JAB` is a value of
`CharacterState`; so a tick of `engineAttacking` — whose `ATTACKING` player's
active-frame hitbox overlaps the non-`HIT` spammer's hurtbox — leaves the
enemy's hp at 50 and fires no event, while the identical engine with the
player in `JAB` reduces the enemy's hp by 10 and scores. -/
theorem player_attack_gate_bug :
    engineAttacking.update (1/2) (9/10) oracle0 (1667/100) noInputs =
      ({ engineAttacking with enemies := [spammerTicked] }, []) ∧
    Physics.checkCollision attackingPlayer.getHitbox (some spammerTicked.getHurtbox) = true ∧
    isAttackState attackingPlayer.state = true ∧
    spammerTicked.isHit = false ∧
    spammerTicked.state = "ATTACK" ∧
    engineJabbing.update (1/2) (9/10) oracle0 (1667/100) noInputs =
      ({ engineJabbing with
          enemies := [{ spammerTicked with hp := 40, isHit := true, hitTimer := 333 }] },
        [GameEvent.score 10]) := by
  refine ⟨?_, ?_, by decide, rfl, rfl, ?_⟩
  · simp only [GameEngine.update, engineAttacking, updatePlayersPhase, noInputs,
      updateEnemiesPhase, closestPlayerX_single, attackingPlayer_x, spammerNearby_tick,
      interactPlayers, spammer_vs_attacking]
    norm_num +decide [sweepDeadEnemies, spammerTicked, attackingPlayer, Enemy.new,
      Character.new, emptyTileMap]
  · norm_num +decide [Physics.checkCollision, Character.getHitbox, Enemy.getHurtbox,
      isAttackState, ATTACK_STATES, attackingPlayer, spammerTicked, Enemy.new, Character.new]
  · simp only [GameEngine.update, engineJabbing, updatePlayersPhase, noInputs,
      updateEnemiesPhase, closestPlayerX_single, jabbingPlayer_x, spammerNearby_tick,
      interactPlayers, spammer_vs_jabbing]
    norm_num +decide [sweepDeadEnemies, spammerTicked, attackingPlayer, Enemy.new,
      Character.new, emptyTileMap]

/-! ## C1: terminal conditions -/

/-- C1: both flags are sticky under a tick, and after any non-terminal tick
leaving at least one player, `gameOver` holds exactly when every player's hp
is at most 0 and `gameWon` exactly when some player's x exceeds 7400 — the
two quantifiers are evaluated independently on the post-tick players. -/
theorem terminal_conditions_quantifiers (fricAttack fricRun : ℚ) (o : Oracle) (dt : ℚ)
    (inputs : String → Option InputState) (g : GameEngine) :
    ((g.gameOver = true → (g.update fricAttack fricRun o dt inputs).1.gameOver = true) ∧
     (g.gameWon = true → (g.update fricAttack fricRun o dt inputs).1.gameWon = true)) ∧
    (g.gameOver = false → g.gameWon = false →
      (g.update fricAttack fricRun o dt inputs).1.players ≠ [] →
      (((g.update fricAttack fricRun o dt inputs).1.gameOver = true ↔
         ∀ pr ∈ (g.update fricAttack fricRun o dt inputs).1.players, pr.2.hp ≤ 0) ∧
       ((g.update fricAttack fricRun o dt inputs).1.gameWon = true ↔
         ∃ pr ∈ (g.update fricAttack fricRun o dt inputs).1.players, pr.2.x > 7400))) := by
  refine ⟨⟨fun h => ?_, fun h => ?_⟩, fun h1 h2 => ?_⟩
  · simp [GameEngine.update, h]
  · simp [GameEngine.update, h]
  · have hcond : ¬((g.gameOver || g.gameWon) = true) := by simp [h1, h2]
    simp only [GameEngine.update]
    rw [if_neg hcond]
    simp only [h1, h2, Bool.not_false, Bool.and_true,
      apply_ite GameEngine.players, apply_ite GameEngine.gameOver, apply_ite GameEngine.gameWon,
      ite_self]
    set P := (updateEnemiesPhase dt g.tileMap g.enemies
      (updatePlayersPhase fricAttack fricRun o dt inputs g.tileMap g.players g.collectibles).1).2.1
      with hP
    intro h3
    have hPe : P.isEmpty = false := by simp [List.isEmpty_iff, h3]
    simp only [hPe, Bool.not_false, Bool.true_and]
    constructor
    · cases hall : P.all (fun pr => decide (pr.2.hp ≤ 0)) with
      | true =>
        rw [if_pos rfl]
        refine ⟨fun _ pr hpr => ?_, fun _ => rfl⟩
        simpa using List.all_eq_true.mp hall pr hpr
      | false =>
        rw [if_neg (by simp [hall])]
        constructor
        · intro h
          exact absurd h (by simp)
        · intro hall2
          have hc : (P.all fun pr => decide (pr.2.hp ≤ 0)) = true :=
            List.all_eq_true.mpr fun pr hpr => decide_eq_true (hall2 pr hpr)
          rw [hall] at hc
          exact absurd hc (by simp)
    · cases hany : P.any (fun pr => decide (pr.2.x > 7400)) with
      | true =>
        rw [if_pos rfl]
        refine ⟨fun _ => ?_, fun _ => rfl⟩
        obtain ⟨pr, hpr, hx⟩ := List.any_eq_true.mp hany
        exact ⟨pr, hpr, by simpa using hx⟩
      | false =>
        rw [if_neg (by simp [hany])]
        constructor
        · intro h
          exact absurd h (by simp)
        · rintro ⟨pr, hpr, hx⟩
          have hc : (P.any fun pr => decide (pr.2.x > 7400)) = true :=
            List.any_eq_true.mpr ⟨pr, hpr, decide_eq_true hx⟩
          rw [hany] at hc
          exact absurd hc (by simp)

/-- Witness for C1 at a concrete input: a tick of `engineWinLose` — player
"a" at 0 hp, player "b" past x = 7400 with full hp — ends with
`gameWon = true` and `gameOver = false`. -/
theorem terminal_conditions_quantifiers_witness :
    (engineWinLose.update (1/2) (9/10) oracle0 (1667/100) noInputs).1.gameWon = true ∧
    (engineWinLose.update (1/2) (9/10) oracle0 (1667/100) noInputs).1.gameOver = false := by
  have h := (terminal_conditions_quantifiers (1/2) (9/10) oracle0 (1667/100) noInputs
    engineWinLose).2 rfl rfl (by decide)
  constructor
  · exact h.2.mpr (by decide)
  · have hno : ¬∀ pr ∈ (engineWinLose.update (1/2) (9/10) oracle0 (1667/100) noInputs).1.players,
        pr.2.hp ≤ 0 := by decide
    cases hov : (engineWinLose.update (1/2) (9/10) oracle0 (1667/100) noInputs).1.gameOver with
    | false => rfl
    | true => exact absurd (h.1.mp hov) hno

/-! ## C10: permanent immunity after hit-timer underrun -/

/-- `setState` never touches the hit timer. -/
theorem setState_hitTimer (c : Character) (s : String) :
    (c.setState s).hitTimer = c.hitTimer := by
  unfold Character.setState
  split <;> rfl

/-- `handleMovement` never touches the hit timer. -/
theorem handleMovement_hitTimer (fricRun : ℚ) (input : InputState) (dt : ℚ) (c : Character) :
    (c.handleMovement fricRun input dt).hitTimer = c.hitTimer := by
  unfold Character.handleMovement
  repeat' split
  all_goals first
    | rfl
    | simp [setState_hitTimer, Character.setState, apply_ite Character.hitTimer, ite_self]

/-- The attack-lock section never touches the hit timer. -/
theorem stepCombat_hitTimer (fA fR : ℚ) (input : InputState) (dt : ℚ) (c : Character) :
    (c.stepCombat fA fR input dt).hitTimer = c.hitTimer := by
  unfold Character.stepCombat
  repeat' split
  all_goals first
    | rfl
    | simp [setState_hitTimer, handleMovement_hitTimer, Character.setState,
        apply_ite Character.hitTimer, ite_self]

/-- X-axis tile resolution never touches the hit timer. -/
theorem resolveMapX_hitTimer (map : Option TileMap) (c : Character) :
    (c.resolveMapX map).hitTimer = c.hitTimer := by
  cases map with
  | none => rfl
  | some m =>
    simp only [Character.resolveMapX]
    split <;> rfl

/-- Y-axis tile resolution never touches the hit timer. -/
theorem resolveMapY_hitTimer (map : Option TileMap) (c : Character) :
    (c.resolveMapY map).hitTimer = c.hitTimer := by
  cases map with
  | none =>
    simp only [Character.resolveMapY]
    split <;> rfl
  | some m =>
    simp only [Character.resolveMapY]
    repeat' split
    all_goals rfl

/-- The physics section never touches the hit timer. -/
theorem stepPhysics_hitTimer (dt : ℚ) (map : Option TileMap) (c : Character) :
    (c.stepPhysics dt map).hitTimer = c.hitTimer := by
  simp only [Character.stepPhysics]
  rw [resolveMapY_hitTimer]
  repeat' split
  all_goals simp [resolveMapX_hitTimer]

/-- The grounded/air state section never touches the hit timer. -/
theorem stepStateGround_hitTimer (c : Character) :
    c.stepStateGround.hitTimer = c.hitTimer := by
  unfold Character.stepStateGround
  repeat' split
  all_goals first
    | rfl
    | simp [setState_hitTimer, Character.setState, apply_ite Character.hitTimer, ite_self]

/-- The attack-trigger section never touches the hit timer. -/
theorem stepTriggers_hitTimer (rJ rK : Bool) (input : InputState) (c : Character) :
    (c.stepTriggers rJ rK input).hitTimer = c.hitTimer := by
  unfold Character.stepTriggers
  repeat' split
  all_goals first
    | rfl
    | simp [setState_hitTimer, Character.setState, apply_ite Character.hitTimer, ite_self]

/-- A non-positive hit timer is left untouched by the opening decrement. -/
theorem tickHitTimer_nonpos (dt : ℚ) (c : Character) (h : ¬c.hitTimer > 0) :
    c.tickHitTimer dt = c := by
  unfold Character.tickHitTimer
  rw [if_neg h]

/-- `CharacterController.update` leaves a non-positive hit timer exactly as
it was: the decrement applies only to positive timers and nothing else in
the tick writes the field. -/
theorem update_hitTimer_nonpos (fA fR : ℚ) (rJ rK : Bool) (input : InputState) (dt : ℚ)
    (map : Option TileMap) (c : Character) (h : ¬c.hitTimer > 0) :
    (Character.update fA fR rJ rK input dt map c).hitTimer = c.hitTimer := by
  unfold Character.update
  rw [stepTriggers_hitTimer, stepStateGround_hitTimer, stepPhysics_hitTimer,
    stepCombat_hitTimer, tickHitTimer_nonpos dt c h]

/-- `checkVoid` never touches the hit timer. -/
theorem checkVoid_hitTimer (b : ℚ) (c : Character) :
    (c.checkVoid b).hitTimer = c.hitTimer := by
  unfold Character.checkVoid
  split <;> rfl
theorem sweepCollectibles_hitTimer (p : Character) (cs : List Collectible) :
    (sweepCollectibles p cs).1.hitTimer = p.hitTimer := by
  rw [sweepCollectibles_frame]

theorem enemyInteractPlayer_immune (e : Enemy) (p : Character) (h : p.hitTimer ≠ 0) :
    (enemyInteractPlayer e p).2.1.hp = p.hp ∧
    (enemyInteractPlayer e p).2.1.hitTimer = p.hitTimer ∧
    GameEvent.damage 10 ∉ (enemyInteractPlayer e p).2.2 := by
  have hbeq : (p.hitTimer == 0) = false := by simpa using h
  unfold enemyInteractPlayer
  simp only [hbeq, Bool.false_eq_true, if_false, ite_self]
  repeat' split
  all_goals simp
theorem interactPlayers_immune (e : Enemy) (players : List (String × Character)) (id : String)
    (p : Character) (hget : mapGet players id = some p) (h : p.hitTimer ≠ 0) :
    ∃ p', mapGet (interactPlayers e players).2.1 id = some p' ∧
      p'.hp = p.hp ∧ p'.hitTimer = p.hitTimer := by
  induction players generalizing e with
  | nil => simp [mapGet] at hget
  | cons pr rest ih =>
    by_cases hk : pr.1 = id
    · rw [mapGet, if_pos (by simpa using hk)] at hget
      have hpr : pr.2 = p := by injection hget
      subst hpr
      refine ⟨(enemyInteractPlayer e pr.2).2.1, ?_, (enemyInteractPlayer_immune e pr.2 h).1,
        (enemyInteractPlayer_immune e pr.2 h).2.1⟩
      rw [interactPlayers, mapGet, if_pos (by simpa using hk)]
    · rw [mapGet, if_neg (by simpa using hk)] at hget
      obtain ⟨p', hp', h1, h2⟩ := ih (enemyInteractPlayer e pr.2).1 hget
      refine ⟨p', ?_, h1, h2⟩
      rw [interactPlayers, mapGet, if_neg (by simpa using hk)]
      exact hp'

theorem updateEnemiesPhase_immune (dt : ℚ) (tm : TileMap) (enemies : List Enemy)
    (players : List (String × Character)) (id : String) (p : Character)
    (hget : mapGet players id = some p) (h : p.hitTimer ≠ 0) :
    ∃ p', mapGet (updateEnemiesPhase dt tm enemies players).2.1 id = some p' ∧
      p'.hp = p.hp ∧ p'.hitTimer = p.hitTimer := by
  induction enemies generalizing players p with
  | nil => exact ⟨p, hget, rfl, rfl⟩
  | cons e rest ih =>
    rw [updateEnemiesPhase]
    by_cases hhit : (Enemy.update dt (closestPlayerX e players) (some tm) e).isHit = true
    · rw [if_pos hhit]
      exact ih players p hget h
    · rw [if_neg hhit]
      obtain ⟨p', hp', h1, h2⟩ :=
        interactPlayers_immune (Enemy.update dt (closestPlayerX e players) (some tm) e)
          players id p hget h
      obtain ⟨p'', hp'', h1', h2'⟩ := ih _ p' hp' (by rw [h2]; exact h)
      exact ⟨p'', hp'', by rw [h1', h1], by rw [h2', h2]⟩

theorem updatePlayersPhase_hitTimer (fA fR : ℚ) (o : Oracle) (dt : ℚ)
    (inputs : String → Option InputState) (tm : TileMap)
    (players : List (String × Character)) (cols : List Collectible) (id : String)
    (p : Character) (hget : mapGet players id = some p) (h : ¬p.hitTimer > 0) :
    ∃ p', mapGet (updatePlayersPhase fA fR o dt inputs tm players cols).1 id = some p' ∧
      p'.hitTimer = p.hitTimer := by
  induction players generalizing cols with
  | nil => simp [mapGet] at hget
  | cons pr rest ih =>
    rw [updatePlayersPhase]
    by_cases hk : pr.1 = id
    · rw [mapGet, if_pos (by simpa using hk)] at hget
      have hpr : pr.2 = p := by injection hget
      cases hin : inputs pr.1 with
      | none =>
        refine ⟨p, ?_, rfl⟩
        rw [mapGet, if_pos (by simpa using hk), hpr]
      | some input =>
        refine ⟨_, by rw [mapGet, if_pos (by simpa using hk)], ?_⟩
        rw [sweepCollectibles_hitTimer, checkVoid_hitTimer, hpr,
          update_hitTimer_nonpos _ _ _ _ _ _ _ _ h]
    · rw [mapGet, if_neg (by simpa using hk)] at hget
      cases hin : inputs pr.1 with
      | none =>
        obtain ⟨p', hp', h1⟩ := ih cols hget
        refine ⟨p', ?_, h1⟩
        rw [mapGet, if_neg (by simpa using hk)]
        exact hp'
      | some input =>
        obtain ⟨p', hp', h1⟩ := ih _ hget
        refine ⟨p', ?_, h1⟩
        rw [mapGet, if_neg (by simpa using hk)]
        exact hp'
theorem update_players_eq (fA fR : ℚ) (o : Oracle) (dt : ℚ)
    (inputs : String → Option InputState) (g : GameEngine)
    (h1 : g.gameOver = false) (h2 : g.gameWon = false) :
    (g.update fA fR o dt inputs).1.players =
      (updateEnemiesPhase dt g.tileMap g.enemies
        (updatePlayersPhase fA fR o dt inputs g.tileMap g.players g.collectibles).1).2.1 := by
  have hcond : ¬((g.gameOver || g.gameWon) = true) := by simp [h1, h2]
  simp only [GameEngine.update]
  rw [if_neg hcond]
  simp only [apply_ite GameEngine.players, ite_self]

theorem hitTimer_run_ne_zero (dts : List ℚ) (c : Character)
    (hne : c.hitTimer ≠ 0)
    (hsum : c.hitTimer > 0 → ∀ pre, pre <+: dts → c.hitTimer ≠ pre.sum) :
    (dts.foldl (fun c2 dt => c2.tickHitTimer dt) c).hitTimer ≠ 0 := by
  induction dts generalizing c with
  | nil => simpa using hne
  | cons dt rest ih =>
    rw [List.foldl_cons]
    by_cases hpos : c.hitTimer > 0
    · have hstep : c.tickHitTimer dt = { c with hitTimer := c.hitTimer - dt } := by
        unfold Character.tickHitTimer
        rw [if_pos hpos]
      rw [hstep]
      apply ih
      · show c.hitTimer - dt ≠ 0
        intro he
        rw [sub_eq_zero] at he
        exact hsum hpos [dt] ⟨rest, rfl⟩ (by simpa using he)
      · intro _ pre hpre he
        have he' : c.hitTimer - dt = pre.sum := he
        have hc : c.hitTimer = dt + pre.sum := by linarith
        exact hsum hpos (dt :: pre)
          (by obtain ⟨t, ht⟩ := hpre; exact ⟨t, by rw [List.cons_append, ht]⟩)
          (by simpa using hc)
    · rw [tickHitTimer_nonpos dt c hpos]
      exact ih c hne (fun hp2 => absurd hp2 hpos)
/-- C10: the hitTimer gate is one-sided. The per-tick update subtracts dt from a
positive hitTimer without clamping and never touches a non-positive one, and the
enemy-attack path damages a player only when hitTimer is exactly 0. Hence (a) a
player with hitTimer < 0 keeps that exact hitTimer through a whole engine tick,
(b) any player with hitTimer different from 0 takes no hp loss and no damage event
from an enemy interaction, and (c) after a hit sets hitTimer to 500, any dt
sequence whose prefix sums never land exactly on 500 leaves hitTimer nonzero
forever - permanent immunity to enemy attack damage. -/
theorem hitTimer_underrun_immunity :
    (∀ (fA fR : ℚ) (o : Oracle) (dt : ℚ) (inputs : String → Option InputState)
       (g : GameEngine) (id : String) (p : Character),
      mapGet g.players id = some p → p.hitTimer < 0 →
      ∃ p', mapGet (g.update fA fR o dt inputs).1.players id = some p' ∧
        p'.hitTimer = p.hitTimer) ∧
    (∀ (e : Enemy) (p : Character), p.hitTimer ≠ 0 →
      (enemyInteractPlayer e p).2.1.hp = p.hp ∧
      (enemyInteractPlayer e p).2.1.hitTimer = p.hitTimer ∧
      GameEvent.damage 10 ∉ (enemyInteractPlayer e p).2.2) ∧
    (∀ (dts : List ℚ) (c : Character), c.hitTimer = 500 →
      (∀ pre ∈ dts.inits, pre.sum ≠ (500 : ℚ)) →
      (dts.foldl (fun c2 dt => c2.tickHitTimer dt) c).hitTimer ≠ 0) := by
  refine ⟨?_, enemyInteractPlayer_immune, ?_⟩
  · intro fA fR o dt inputs g id p hget hneg
    by_cases hterm : g.gameOver = true ∨ g.gameWon = true
    · have hres : g.update fA fR o dt inputs = (g, []) := by
        rcases hterm with h | h <;> simp [GameEngine.update, h]
      rw [hres]
      exact ⟨p, hget, rfl⟩
    · push_neg at hterm
      have h1 : g.gameOver = false := by simpa using hterm.1
      have h2 : g.gameWon = false := by simpa using hterm.2
      rw [update_players_eq fA fR o dt inputs g h1 h2]
      obtain ⟨p1, hget1, hp1⟩ := updatePlayersPhase_hitTimer fA fR o dt inputs g.tileMap
        g.players g.collectibles id p hget (by linarith)
      obtain ⟨p2, hget2, _, hp2⟩ := updateEnemiesPhase_immune dt g.tileMap g.enemies _
        id p1 hget1 (by rw [hp1]; exact ne_of_lt hneg)
      exact ⟨p2, hget2, by rw [hp2, hp1]⟩
  · intro dts c h500 hsum
    apply hitTimer_run_ne_zero
    · rw [h500]
      norm_num
    · intro _ pre hpre
      rw [h500]
      exact fun he => hsum pre ((List.mem_inits pre dts).mpr hpre) he.symm

theorem hitTimer_underrun_immunity_witness :
    (∃ p', mapGet (engineImmune.update (1/2) (9/10) oracle0 (1667/100) allIdleInputs).1.players
        "p1" = some p' ∧ p'.hitTimer = immunePlayer.hitTimer) ∧
    ((enemyInteractPlayer (Enemy.new 330 300 "SPAMMER" "e2") hitPlayer).2.1.hp = hitPlayer.hp ∧
     (enemyInteractPlayer (Enemy.new 330 300 "SPAMMER" "e2") hitPlayer).2.1.hitTimer =
       hitPlayer.hitTimer ∧
     GameEvent.damage 10 ∉ (enemyInteractPlayer (Enemy.new 330 300 "SPAMMER" "e2") hitPlayer).2.2) ∧
    (([(300 : ℚ), 300].foldl (fun (c2 : Character) dt => c2.tickHitTimer dt)
        { Character.new 0 0 with hitTimer := 500 }).hitTimer ≠ 0) := by
  refine ⟨?_, ?_, ?_⟩
  · exact hitTimer_underrun_immunity.1 (1/2) (9/10) oracle0 (1667/100) allIdleInputs
      engineImmune "p1" immunePlayer rfl (by decide)
  · exact hitTimer_underrun_immunity.2.1 _ hitPlayer (by decide)
  · exact hitTimer_underrun_immunity.2.2 [300, 300]
      { Character.new 0 0 with hitTimer := 500 } rfl
      (by norm_num [List.inits, List.sum_cons, List.sum_nil])

theorem setState_vx (c : Character) (s : String) : (c.setState s).vx = c.vx := by
  unfold Character.setState; split <;> rfl

theorem setState_vy (c : Character) (s : String) : (c.setState s).vy = c.vy := by
  unfold Character.setState; split <;> rfl

theorem setState_x (c : Character) (s : String) : (c.setState s).x = c.x := by
  unfold Character.setState; split <;> rfl

theorem setState_y (c : Character) (s : String) : (c.setState s).y = c.y := by
  unfold Character.setState; split <;> rfl

theorem setState_state (c : Character) (s : String) : (c.setState s).state = s := by
  unfold Character.setState
  split
  · next h => exact eq_of_beq (by simpa using h)
  · rfl

theorem tickHitTimer_vx (dt : ℚ) (c : Character) : (c.tickHitTimer dt).vx = c.vx := by
  unfold Character.tickHitTimer; split <;> rfl

theorem tickHitTimer_vy (dt : ℚ) (c : Character) : (c.tickHitTimer dt).vy = c.vy := by
  unfold Character.tickHitTimer; split <;> rfl

theorem tickHitTimer_x (dt : ℚ) (c : Character) : (c.tickHitTimer dt).x = c.x := by
  unfold Character.tickHitTimer; split <;> rfl

theorem tickHitTimer_y (dt : ℚ) (c : Character) : (c.tickHitTimer dt).y = c.y := by
  unfold Character.tickHitTimer; split <;> rfl

theorem tickHitTimer_state (dt : ℚ) (c : Character) : (c.tickHitTimer dt).state = c.state := by
  unfold Character.tickHitTimer; split <;> rfl

theorem tickHitTimer_isGrounded (dt : ℚ) (c : Character) :
    (c.tickHitTimer dt).isGrounded = c.isGrounded := by
  unfold Character.tickHitTimer; split <;> rfl

theorem stepCombat_not_attack (fA fR : ℚ) (input : InputState) (dt : ℚ) (c : Character)
    (h : isAttackState c.state = false) :
    c.stepCombat fA fR input dt = c.handleMovement fR input dt := by
  unfold Character.stepCombat
  rw [if_neg (by simp [h])]

theorem handleMovement_idle (fR dt : ℚ) (c : Character)
    (hns : (c.state == "JUMPING") = false) :
    c.handleMovement fR idleInput dt =
      if |c.vx * fR| < 0.01 then
        { Character.setState { c with vx := (0 : ℚ) } "IDLE" with
            canJump := true, vy := c.vy + 0.005 * dt }
      else
        { c with vx := c.vx * fR, canJump := true, vy := c.vy + 0.005 * dt } := by
  have hns' : (c.state != "JUMPING") = true := by simp [bne, hns]
  by_cases hsnap : |c.vx * fR| < 0.01
  · simp [Character.handleMovement, idleInput, hns', hsnap, setState_vy]
  · simp [Character.handleMovement, idleInput, hns', hsnap]

theorem stepPhysics_floor (dt : ℚ) (c : Character)
    (hy : c.y = 500) (hvy : 0 ≤ c.vy * dt) :
    c.stepPhysics dt none =
      if c.x + c.vx * dt < 0 then
        { c with x := 0, vx := 0, y := 500, vy := 0, isGrounded := true }
      else if c.x + c.vx * dt > 7500 then
        { c with x := 7500, vx := 0, y := 500, vy := 0, isGrounded := true }
      else
        { c with x := c.x + c.vx * dt, y := 500, vy := 0, isGrounded := true } := by
  have hfloor : (500 : ℚ) ≤ c.y + c.vy * dt := by rw [hy]; linarith
  by_cases h1 : c.x + c.vx * dt < 0
  · simp only [Character.stepPhysics, Character.resolveMapX, Character.resolveMapY]
    rw [if_pos h1, if_pos h1]
    rw [if_pos (show (500:ℚ) ≤ c.y + c.vy * dt from hfloor)]
  · by_cases h2 : c.x + c.vx * dt > 7500
    · simp only [Character.stepPhysics, Character.resolveMapX, Character.resolveMapY]
      rw [if_neg h1, if_pos h2, if_neg h1, if_pos h2]
      rw [if_pos (show (500:ℚ) ≤ c.y + c.vy * dt from hfloor)]
    · simp only [Character.stepPhysics, Character.resolveMapX, Character.resolveMapY]
      rw [if_neg h1, if_neg h2, if_neg h1, if_neg h2]
      rw [if_pos (show (500:ℚ) ≤ c.y + c.vy * dt from hfloor)]

theorem stepStateGround_idle (c : Character)
    (hg : c.isGrounded = true) (hvy : c.vy = 0)
    (hns : (c.state == "JUMPING") = false) :
    c.stepStateGround = { c with safePosition := (c.x, c.y), jumpCount := 0 } := by
  simp [Character.stepStateGround, hg, hvy, hns]

theorem stepTriggers_idle (rJ rK : Bool) (c : Character) :
    c.stepTriggers rJ rK idleInput = c := by
  unfold Character.stepTriggers
  split <;> simp [idleInput]

theorem friction_tick (fA fR : ℚ) (rJ rK : Bool) (dt : ℚ) (c : Character)
    (hf0 : 0 < fR) (hf1 : fR < 1) (hdt : 0 < dt) (hc : frictionInv c) :
    frictionInv (c.update fA fR rJ rK idleInput dt none) ∧
    |(c.update fA fR rJ rK idleInput dt none).vx| ≤ fR * |c.vx| ∧
    (|c.vx| * fR < 0.01 →
      (c.update fA fR rJ rK idleInput dt none).vx = 0 ∧
      (c.update fA fR rJ rK idleInput dt none).state = "IDLE") := by
  obtain ⟨hy, hvy, hg, hs, hx0, hx1⟩ := hc
  have hns : (c.state == "JUMPING") = false := by
    rcases hs with h | h <;> rw [h] <;> rfl
  have hnotatk : isAttackState c.state = false := by
    rcases hs with h | h <;> rw [h] <;> rfl
  have hx0' : ¬ (c.x < 0) := not_lt.mpr hx0
  have hx1' : ¬ (c.x > 7500) := not_lt.mpr hx1
  have h5 : (0:ℚ) ≤ 0.005 * dt * dt := by positivity
  have hij : (("IDLE" : String) == "JUMPING") = false := rfl
  by_cases hsnap : |c.vx * fR| < 0.01
  · refine ⟨⟨?_, ?_, ?_, ?_, ?_, ?_⟩, ?_, fun _ => ⟨?_, ?_⟩⟩
    · simp [Character.update, stepCombat_not_attack, handleMovement_idle,
        stepPhysics_floor, stepStateGround_idle, stepTriggers_idle,
        tickHitTimer_state, tickHitTimer_vx, tickHitTimer_vy, tickHitTimer_x,
        tickHitTimer_y, tickHitTimer_isGrounded, setState_state, setState_vx,
        setState_vy, setState_x, setState_y, hnotatk, hns, hij, hy, hvy, h5,
        hsnap, hx0', hx1']
    · simp [Character.update, stepCombat_not_attack, handleMovement_idle,
        stepPhysics_floor, stepStateGround_idle, stepTriggers_idle,
        tickHitTimer_state, tickHitTimer_vx, tickHitTimer_vy, tickHitTimer_x,
        tickHitTimer_y, tickHitTimer_isGrounded, setState_state, setState_vx,
        setState_vy, setState_x, setState_y, hnotatk, hns, hij, hy, hvy, h5,
        hsnap, hx0', hx1']
    · simp [Character.update, stepCombat_not_attack, handleMovement_idle,
        stepPhysics_floor, stepStateGround_idle, stepTriggers_idle,
        tickHitTimer_state, tickHitTimer_vx, tickHitTimer_vy, tickHitTimer_x,
        tickHitTimer_y, tickHitTimer_isGrounded, setState_state, setState_vx,
        setState_vy, setState_x, setState_y, hnotatk, hns, hij, hy, hvy, h5,
        hsnap, hx0', hx1']
    · simp [Character.update, stepCombat_not_attack, handleMovement_idle,
        stepPhysics_floor, stepStateGround_idle, stepTriggers_idle,
        tickHitTimer_state, tickHitTimer_vx, tickHitTimer_vy, tickHitTimer_x,
        tickHitTimer_y, tickHitTimer_isGrounded, setState_state, setState_vx,
        setState_vy, setState_x, setState_y, hnotatk, hns, hij, hy, hvy, h5,
        hsnap, hx0', hx1']
    · simp [Character.update, stepCombat_not_attack, handleMovement_idle,
        stepPhysics_floor, stepStateGround_idle, stepTriggers_idle,
        tickHitTimer_state, tickHitTimer_vx, tickHitTimer_vy, tickHitTimer_x,
        tickHitTimer_y, tickHitTimer_isGrounded, setState_state, setState_vx,
        setState_vy, setState_x, setState_y, hnotatk, hns, hij, hy, hvy, h5,
        hsnap, hx0', hx1', hx0]
    · simp [Character.update, stepCombat_not_attack, handleMovement_idle,
        stepPhysics_floor, stepStateGround_idle, stepTriggers_idle,
        tickHitTimer_state, tickHitTimer_vx, tickHitTimer_vy, tickHitTimer_x,
        tickHitTimer_y, tickHitTimer_isGrounded, setState_state, setState_vx,
        setState_vy, setState_x, setState_y, hnotatk, hns, hij, hy, hvy, h5,
        hsnap, hx0', hx1', hx1]
    · simp [Character.update, stepCombat_not_attack, handleMovement_idle,
        stepPhysics_floor, stepStateGround_idle, stepTriggers_idle,
        tickHitTimer_state, tickHitTimer_vx, tickHitTimer_vy, tickHitTimer_x,
        tickHitTimer_y, tickHitTimer_isGrounded, setState_state, setState_vx,
        setState_vy, setState_x, setState_y, hnotatk, hns, hij, hy, hvy, h5,
        hsnap, hx0', hx1']
      positivity
    · simp [Character.update, stepCombat_not_attack, handleMovement_idle,
        stepPhysics_floor, stepStateGround_idle, stepTriggers_idle,
        tickHitTimer_state, tickHitTimer_vx, tickHitTimer_vy, tickHitTimer_x,
        tickHitTimer_y, tickHitTimer_isGrounded, setState_state, setState_vx,
        setState_vy, setState_x, setState_y, hnotatk, hns, hij, hy, hvy, h5,
        hsnap, hx0', hx1']
    · simp [Character.update, stepCombat_not_attack, handleMovement_idle,
        stepPhysics_floor, stepStateGround_idle, stepTriggers_idle,
        tickHitTimer_state, tickHitTimer_vx, tickHitTimer_vy, tickHitTimer_x,
        tickHitTimer_y, tickHitTimer_isGrounded, setState_state, setState_vx,
        setState_vy, setState_x, setState_y, hnotatk, hns, hij, hy, hvy, h5,
        hsnap, hx0', hx1']
  · have himp : ¬ (|c.vx| * fR < 0.01) := by
      intro hlt
      exact hsnap (by rw [abs_mul, abs_of_pos hf0]; exact hlt)
    by_cases h1 : c.x + c.vx * fR * dt < 0
    · refine ⟨⟨?_, ?_, ?_, ?_, ?_, ?_⟩, ?_, fun hlt => absurd hlt himp⟩
      · simp [Character.update, stepCombat_not_attack, handleMovement_idle,
        stepPhysics_floor, stepStateGround_idle, stepTriggers_idle,
        tickHitTimer_state, tickHitTimer_vx, tickHitTimer_vy, tickHitTimer_x,
        tickHitTimer_y, tickHitTimer_isGrounded, setState_state, setState_vx,
        setState_vy, setState_x, setState_y, hnotatk, hns, hij, hy, hvy, h5,
        hsnap, hx0', hx1', hs, h1]
      · simp [Character.update, stepCombat_not_attack, handleMovement_idle,
        stepPhysics_floor, stepStateGround_idle, stepTriggers_idle,
        tickHitTimer_state, tickHitTimer_vx, tickHitTimer_vy, tickHitTimer_x,
        tickHitTimer_y, tickHitTimer_isGrounded, setState_state, setState_vx,
        setState_vy, setState_x, setState_y, hnotatk, hns, hij, hy, hvy, h5,
        hsnap, hx0', hx1', hs, h1]
      · simp [Character.update, stepCombat_not_attack, handleMovement_idle,
        stepPhysics_floor, stepStateGround_idle, stepTriggers_idle,
        tickHitTimer_state, tickHitTimer_vx, tickHitTimer_vy, tickHitTimer_x,
        tickHitTimer_y, tickHitTimer_isGrounded, setState_state, setState_vx,
        setState_vy, setState_x, setState_y, hnotatk, hns, hij, hy, hvy, h5,
        hsnap, hx0', hx1', hs, h1]
      · simp [Character.update, stepCombat_not_attack, handleMovement_idle,
        stepPhysics_floor, stepStateGround_idle, stepTriggers_idle,
        tickHitTimer_state, tickHitTimer_vx, tickHitTimer_vy, tickHitTimer_x,
        tickHitTimer_y, tickHitTimer_isGrounded, setState_state, setState_vx,
        setState_vy, setState_x, setState_y, hnotatk, hns, hij, hy, hvy, h5,
        hsnap, hx0', hx1', hs, h1]
      · simp [Character.update, stepCombat_not_attack, handleMovement_idle,
        stepPhysics_floor, stepStateGround_idle, stepTriggers_idle,
        tickHitTimer_state, tickHitTimer_vx, tickHitTimer_vy, tickHitTimer_x,
        tickHitTimer_y, tickHitTimer_isGrounded, setState_state, setState_vx,
        setState_vy, setState_x, setState_y, hnotatk, hns, hij, hy, hvy, h5,
        hsnap, hx0', hx1', hs, h1]
      · simp [Character.update, stepCombat_not_attack, handleMovement_idle,
        stepPhysics_floor, stepStateGround_idle, stepTriggers_idle,
        tickHitTimer_state, tickHitTimer_vx, tickHitTimer_vy, tickHitTimer_x,
        tickHitTimer_y, tickHitTimer_isGrounded, setState_state, setState_vx,
        setState_vy, setState_x, setState_y, hnotatk, hns, hij, hy, hvy, h5,
        hsnap, hx0', hx1', hs, h1]
      · have hvx : (c.update fA fR rJ rK idleInput dt none).vx = 0 := by
          simp [Character.update, stepCombat_not_attack, handleMovement_idle,
        stepPhysics_floor, stepStateGround_idle, stepTriggers_idle,
        tickHitTimer_state, tickHitTimer_vx, tickHitTimer_vy, tickHitTimer_x,
        tickHitTimer_y, tickHitTimer_isGrounded, setState_state, setState_vx,
        setState_vy, setState_x, setState_y, hnotatk, hns, hij, hy, hvy, h5,
        hsnap, hx0', hx1', hs, h1]
        rw [hvx, abs_zero]
        positivity
    · by_cases h2 : c.x + c.vx * fR * dt > 7500
      · refine ⟨⟨?_, ?_, ?_, ?_, ?_, ?_⟩, ?_, fun hlt => absurd hlt himp⟩
        · simp [Character.update, stepCombat_not_attack, handleMovement_idle,
        stepPhysics_floor, stepStateGround_idle, stepTriggers_idle,
        tickHitTimer_state, tickHitTimer_vx, tickHitTimer_vy, tickHitTimer_x,
        tickHitTimer_y, tickHitTimer_isGrounded, setState_state, setState_vx,
        setState_vy, setState_x, setState_y, hnotatk, hns, hij, hy, hvy, h5,
        hsnap, hx0', hx1', hs, h1, h2]
        · simp [Character.update, stepCombat_not_attack, handleMovement_idle,
        stepPhysics_floor, stepStateGround_idle, stepTriggers_idle,
        tickHitTimer_state, tickHitTimer_vx, tickHitTimer_vy, tickHitTimer_x,
        tickHitTimer_y, tickHitTimer_isGrounded, setState_state, setState_vx,
        setState_vy, setState_x, setState_y, hnotatk, hns, hij, hy, hvy, h5,
        hsnap, hx0', hx1', hs, h1, h2]
        · simp [Character.update, stepCombat_not_attack, handleMovement_idle,
        stepPhysics_floor, stepStateGround_idle, stepTriggers_idle,
        tickHitTimer_state, tickHitTimer_vx, tickHitTimer_vy, tickHitTimer_x,
        tickHitTimer_y, tickHitTimer_isGrounded, setState_state, setState_vx,
        setState_vy, setState_x, setState_y, hnotatk, hns, hij, hy, hvy, h5,
        hsnap, hx0', hx1', hs, h1, h2]
        · simp [Character.update, stepCombat_not_attack, handleMovement_idle,
        stepPhysics_floor, stepStateGround_idle, stepTriggers_idle,
        tickHitTimer_state, tickHitTimer_vx, tickHitTimer_vy, tickHitTimer_x,
        tickHitTimer_y, tickHitTimer_isGrounded, setState_state, setState_vx,
        setState_vy, setState_x, setState_y, hnotatk, hns, hij, hy, hvy, h5,
        hsnap, hx0', hx1', hs, h1, h2]
        · simp [Character.update, stepCombat_not_attack, handleMovement_idle,
        stepPhysics_floor, stepStateGround_idle, stepTriggers_idle,
        tickHitTimer_state, tickHitTimer_vx, tickHitTimer_vy, tickHitTimer_x,
        tickHitTimer_y, tickHitTimer_isGrounded, setState_state, setState_vx,
        setState_vy, setState_x, setState_y, hnotatk, hns, hij, hy, hvy, h5,
        hsnap, hx0', hx1', hs, h1, h2]
        · simp [Character.update, stepCombat_not_attack, handleMovement_idle,
        stepPhysics_floor, stepStateGround_idle, stepTriggers_idle,
        tickHitTimer_state, tickHitTimer_vx, tickHitTimer_vy, tickHitTimer_x,
        tickHitTimer_y, tickHitTimer_isGrounded, setState_state, setState_vx,
        setState_vy, setState_x, setState_y, hnotatk, hns, hij, hy, hvy, h5,
        hsnap, hx0', hx1', hs, h1, h2]
        · have hvx : (c.update fA fR rJ rK idleInput dt none).vx = 0 := by
            simp [Character.update, stepCombat_not_attack, handleMovement_idle,
        stepPhysics_floor, stepStateGround_idle, stepTriggers_idle,
        tickHitTimer_state, tickHitTimer_vx, tickHitTimer_vy, tickHitTimer_x,
        tickHitTimer_y, tickHitTimer_isGrounded, setState_state, setState_vx,
        setState_vy, setState_x, setState_y, hnotatk, hns, hij, hy, hvy, h5,
        hsnap, hx0', hx1', hs, h1, h2]
          rw [hvx, abs_zero]
          positivity
      · refine ⟨⟨?_, ?_, ?_, ?_, ?_, ?_⟩, ?_, fun hlt => absurd hlt himp⟩
        · simp [Character.update, stepCombat_not_attack, handleMovement_idle,
        stepPhysics_floor, stepStateGround_idle, stepTriggers_idle,
        tickHitTimer_state, tickHitTimer_vx, tickHitTimer_vy, tickHitTimer_x,
        tickHitTimer_y, tickHitTimer_isGrounded, setState_state, setState_vx,
        setState_vy, setState_x, setState_y, hnotatk, hns, hij, hy, hvy, h5,
        hsnap, hx0', hx1', hs, h1, h2]
        · simp [Character.update, stepCombat_not_attack, handleMovement_idle,
        stepPhysics_floor, stepStateGround_idle, stepTriggers_idle,
        tickHitTimer_state, tickHitTimer_vx, tickHitTimer_vy, tickHitTimer_x,
        tickHitTimer_y, tickHitTimer_isGrounded, setState_state, setState_vx,
        setState_vy, setState_x, setState_y, hnotatk, hns, hij, hy, hvy, h5,
        hsnap, hx0', hx1', hs, h1, h2]
        · simp [Character.update, stepCombat_not_attack, handleMovement_idle,
        stepPhysics_floor, stepStateGround_idle, stepTriggers_idle,
        tickHitTimer_state, tickHitTimer_vx, tickHitTimer_vy, tickHitTimer_x,
        tickHitTimer_y, tickHitTimer_isGrounded, setState_state, setState_vx,
        setState_vy, setState_x, setState_y, hnotatk, hns, hij, hy, hvy, h5,
        hsnap, hx0', hx1', hs, h1, h2]
        · simp [Character.update, stepCombat_not_attack, handleMovement_idle,
        stepPhysics_floor, stepStateGround_idle, stepTriggers_idle,
        tickHitTimer_state, tickHitTimer_vx, tickHitTimer_vy, tickHitTimer_x,
        tickHitTimer_y, tickHitTimer_isGrounded, setState_state, setState_vx,
        setState_vy, setState_x, setState_y, hnotatk, hns, hij, hy, hvy, h5,
        hsnap, hx0', hx1', hs, h1, h2]
        · have hx : (c.update fA fR rJ rK idleInput dt none).x =
              c.x + c.vx * fR * dt := by
            simp [Character.update, stepCombat_not_attack, handleMovement_idle,
        stepPhysics_floor, stepStateGround_idle, stepTriggers_idle,
        tickHitTimer_state, tickHitTimer_vx, tickHitTimer_vy, tickHitTimer_x,
        tickHitTimer_y, tickHitTimer_isGrounded, setState_state, setState_vx,
        setState_vy, setState_x, setState_y, hnotatk, hns, hij, hy, hvy, h5,
        hsnap, hx0', hx1', hs, h1, h2]
          rw [hx]
          linarith [not_lt.mp h1]
        · have hx : (c.update fA fR rJ rK idleInput dt none).x =
              c.x + c.vx * fR * dt := by
            simp [Character.update, stepCombat_not_attack, handleMovement_idle,
        stepPhysics_floor, stepStateGround_idle, stepTriggers_idle,
        tickHitTimer_state, tickHitTimer_vx, tickHitTimer_vy, tickHitTimer_x,
        tickHitTimer_y, tickHitTimer_isGrounded, setState_state, setState_vx,
        setState_vy, setState_x, setState_y, hnotatk, hns, hij, hy, hvy, h5,
        hsnap, hx0', hx1', hs, h1, h2]
          rw [hx]
          linarith [not_lt.mp h2]
        · have hvx : (c.update fA fR rJ rK idleInput dt none).vx = c.vx * fR := by
            simp [Character.update, stepCombat_not_attack, handleMovement_idle,
        stepPhysics_floor, stepStateGround_idle, stepTriggers_idle,
        tickHitTimer_state, tickHitTimer_vx, tickHitTimer_vy, tickHitTimer_x,
        tickHitTimer_y, tickHitTimer_isGrounded, setState_state, setState_vx,
        setState_vy, setState_x, setState_y, hnotatk, hns, hij, hy, hvy, h5,
        hsnap, hx0', hx1', hs, h1, h2]
          rw [hvx, abs_mul, abs_of_pos hf0, mul_comm]

theorem iterUpdate_succ (fA fR : ℚ) (rJ rK : Bool) (input : InputState) (dt : ℚ)
    (map : Option TileMap) (c : Character) (n : ℕ) :
    Character.iterUpdate fA fR rJ rK input dt map c (n + 1) =
      (Character.iterUpdate fA fR rJ rK input dt map c n).update fA fR rJ rK input dt map := rfl

/-- C9: friction convergence. A grounded character on the hardcoded floor in
IDLE or RUNNING state with no movement input, ticked repeatedly with a fixed
positive dt and friction factor fR strictly between 0 and 1 (the source value
is Math.pow(0.90, dt/16.67)), has |vx| strictly shrinking on every tick where
vx is nonzero, and after a bounded number of ticks vx is exactly 0 (snapped
once |vx| falls below the 0.01 epsilon, or zeroed by the world-bounds clamp)
and the state is IDLE from then on. -/
theorem friction_convergence (fA fR : ℚ) (rJ rK : Bool) (dt : ℚ) (c : Character)
    (hf0 : 0 < fR) (hf1 : fR < 1) (hdt : 0 < dt)
    (hy : c.y = 500) (hvy : c.vy = 0) (hg : c.isGrounded = true)
    (hs : c.state = "IDLE" ∨ c.state = "RUNNING")
    (hx0 : 0 ≤ c.x) (hx1 : c.x ≤ 7500) :
    (∀ n, (Character.iterUpdate fA fR rJ rK idleInput dt none c n).vx ≠ 0 →
      |(Character.iterUpdate fA fR rJ rK idleInput dt none c (n + 1)).vx| <
        |(Character.iterUpdate fA fR rJ rK idleInput dt none c n).vx|) ∧
    ∃ N, ∀ n, N ≤ n →
      (Character.iterUpdate fA fR rJ rK idleInput dt none c n).vx = 0 ∧
      (Character.iterUpdate fA fR rJ rK idleInput dt none c n).state = "IDLE" := by
  set T := Character.iterUpdate fA fR rJ rK idleInput dt none c with hT
  have hsucc : ∀ k, T (k + 1) = (T k).update fA fR rJ rK idleInput dt none := fun k => rfl
  have hinv : ∀ n, frictionInv (T n) := by
    intro n
    induction n with
    | zero => exact ⟨hy, hvy, hg, hs, hx0, hx1⟩
    | succ n ih =>
      rw [hsucc]
      exact (friction_tick fA fR rJ rK dt _ hf0 hf1 hdt ih).1
  have hdec : ∀ n, |(T (n + 1)).vx| ≤ fR * |(T n).vx| := by
    intro n
    rw [hsucc]
    exact (friction_tick fA fR rJ rK dt _ hf0 hf1 hdt (hinv n)).2.1
  have hgeom : ∀ n, |(T n).vx| ≤ fR ^ n * |c.vx| := by
    intro n
    induction n with
    | zero => simp [hT, Character.iterUpdate]
    | succ n ih =>
      calc |(T (n + 1)).vx| ≤ fR * |(T n).vx| := hdec n
        _ ≤ fR * (fR ^ n * |c.vx|) := mul_le_mul_of_nonneg_left ih hf0.le
        _ = fR ^ (n + 1) * |c.vx| := by ring
  constructor
  · intro n hne
    calc |(T (n + 1)).vx| ≤ fR * |(T n).vx| := hdec n
      _ < 1 * |(T n).vx| := mul_lt_mul_of_pos_right hf1 (abs_pos.mpr hne)
      _ = |(T n).vx| := one_mul _
  · obtain ⟨N, hN⟩ : ∃ N, fR ^ N * |c.vx| < 0.01 := by
      by_cases hv : c.vx = 0
      · exact ⟨0, by simp [hv]; norm_num⟩
      · have hpos : (0 : ℚ) < |c.vx| := abs_pos.mpr hv
        have hε : (0 : ℚ) < 0.01 / |c.vx| := div_pos (by norm_num) hpos
        obtain ⟨N, hN⟩ := exists_pow_lt_of_lt_one hε hf1
        refine ⟨N, ?_⟩
        have h2 := (lt_div_iff₀ hpos).mp hN
        linarith
    refine ⟨N + 1, ?_⟩
    intro n hn
    obtain ⟨m, rfl⟩ : ∃ m, n = m + 1 :=
      ⟨n - 1, (Nat.succ_pred_eq_of_pos (Nat.lt_of_lt_of_le (Nat.succ_pos N) hn)).symm⟩
    have hm : N ≤ m := Nat.succ_le_succ_iff.mp hn
    have hsmall : |(T m).vx| * fR < 0.01 := by
      have h1 : |(T m).vx| ≤ fR ^ m * |c.vx| := hgeom m
      have h2 : fR ^ m ≤ fR ^ N := pow_le_pow_of_le_one hf0.le hf1.le hm
      have h3 : fR ^ m * |c.vx| ≤ fR ^ N * |c.vx| :=
        mul_le_mul_of_nonneg_right h2 (abs_nonneg _)
      have h4 : |(T m).vx| < 0.01 := lt_of_le_of_lt (le_trans h1 h3) hN
      calc |(T m).vx| * fR ≤ |(T m).vx| * 1 :=
            mul_le_mul_of_nonneg_left hf1.le (abs_nonneg _)
        _ = |(T m).vx| := mul_one _
        _ < 0.01 := h4
    rw [hsucc]
    exact (friction_tick fA fR rJ rK dt _ hf0 hf1 hdt (hinv m)).2.2 hsmall

theorem friction_convergence_witness :
    (∀ n, (Character.iterUpdate (1/2) (9/10) false false idleInput (1667/100) none
        driftingPlayer n).vx ≠ 0 →
      |(Character.iterUpdate (1/2) (9/10) false false idleInput (1667/100) none
        driftingPlayer (n + 1)).vx| <
        |(Character.iterUpdate (1/2) (9/10) false false idleInput (1667/100) none
        driftingPlayer n).vx|) ∧
    ∃ N, ∀ n, N ≤ n →
      (Character.iterUpdate (1/2) (9/10) false false idleInput (1667/100) none
        driftingPlayer n).vx = 0 ∧
      (Character.iterUpdate (1/2) (9/10) false false idleInput (1667/100) none
        driftingPlayer n).state = "IDLE" :=
  friction_convergence (1/2) (9/10) false false (1667/100) driftingPlayer
    (by norm_num) (by norm_num) (by norm_num) rfl rfl rfl (Or.inl rfl)
    (by norm_num [driftingPlayer, Character.new]) (by norm_num [driftingPlayer, Character.new])
